import Mathlib

/-!
Verification of the `raskyer/asm` Go port of the ASM class-file parser.

The definitions below are a shallow embedding of the Go source (packages
`asm`, `asm/symbol`, `asm/opcodes`, `asm/constants`, `asm/typereference`).
Machine integers are modelled as `Nat`/`Int`; Go `byte` values are kept in
`[0, 256)` and every operation the Go type system performs on `byte`
operands (in particular shifts, which truncate to 8 bits *before* any
conversion to `int`) is made explicit.  A byte read out of range of the
buffer yields 0 here (Go would panic); all concrete inputs used in the
theorems below stay in bounds.
-/

/-- One byte of the class buffer: Go `b[off]`, a value in `[0, 256)`.
Out-of-range reads default to 0. -/
def byteAt (b : List Nat) (off : Nat) : Nat := b.getD off 0 % 256

/-- Go shift-left of a `byte`-typed operand: the result stays a `byte`,
so it is truncated to 8 bits. -/
def byteShl (x k : Nat) : Nat := (x <<< k) % 256

/-- Reinterpret the low 16 bits of a value as a signed 16-bit integer
(Go `int16(...)` conversion). -/
def toInt16 (n : Nat) : Int :=
  if n % 65536 < 32768 then ((n % 65536 : Nat) : Int) else ((n % 65536 : Nat) : Int) - 65536

/-- Low 8 bits of a (possibly negative) integer: Go `byte(x)` conversion. -/
def toByte (x : Int) : Nat := (x % 256).toNat

/-- Go arithmetic shift right on a signed integer (floor division). -/
def asr (x : Int) (k : Nat) : Int := Int.fdiv x (2 ^ k)

/-- `ClassReader.readByte`: `return c.b[offset] & 0xFF`. -/
def readByte (b : List Nat) (off : Nat) : Nat := byteAt b off &&& 0xFF

/-- `ClassReader.readUnsignedShort`:
`int(((b[offset] & 0xFF) << 8) | (b[offset+1] & 0xFF))`.
Both operands of the shift are Go `byte`s, so `(b[offset]&0xFF)<<8`
is truncated to 8 bits (it is always 0). -/
def readUnsignedShort (b : List Nat) (off : Nat) : Nat :=
  byteShl (byteAt b off &&& 0xFF) 8 ||| (byteAt b (off + 1) &&& 0xFF)

/-- `ClassReader.readShort`:
`int16((((b[offset] & 0xFF) << 8) | (b[offset+1] & 0xFF)))`, with the same
byte-typed shift as `readUnsignedShort`. -/
def readShort (b : List Nat) (off : Nat) : Int :=
  toInt16 (byteShl (byteAt b off &&& 0xFF) 8 ||| (byteAt b (off + 1) &&& 0xFF))

/-- `ClassReader.readInt`:
`int(((b[offset]&0xFF)<<24) | ((b[offset+1]&0xFF)<<16) | ((b[offset+2]&0xFF)<<8) | (b[offset+3]&0xFF))`;
all four shift operands are Go `byte`s. -/
def readInt (b : List Nat) (off : Nat) : Nat :=
  byteShl (byteAt b off &&& 0xFF) 24 ||| byteShl (byteAt b (off + 1) &&& 0xFF) 16 |||
    byteShl (byteAt b (off + 2) &&& 0xFF) 8 ||| (byteAt b (off + 3) &&& 0xFF)

/-- `ClassReader.readLong`: `(int64(readInt(offset)) << 32) | int64(readInt(offset+4) & 0xFFFFFFFF)`. -/
def readLong (b : List Nat) (off : Nat) : Nat :=
  (readInt b off) <<< 32 ||| (readInt b (off + 4) &&& 0xFFFFFFFF)

theorem byteAt_lt (b : List Nat) (off : Nat) : byteAt b off < 256 :=
  Nat.mod_lt _ (by norm_num)

theorem byteShl_byte_eight (x : Nat) : byteShl (x &&& 0xFF) 8 = 0 := by
  simp [byteShl, Nat.shiftLeft_eq, Nat.mul_mod_left]

theorem byteShl_byte_sixteen (x : Nat) : byteShl (x &&& 0xFF) 16 = 0 := by
  have : (2 : Nat) ^ 16 = 256 * 256 := by norm_num
  simp [byteShl, Nat.shiftLeft_eq, this, ← Nat.mul_assoc, Nat.mul_mod_left]
  omega

theorem byteShl_byte_twentyfour (x : Nat) : byteShl (x &&& 0xFF) 24 = 0 := by
  have : (2 : Nat) ^ 24 = (256 * 256 * 256 : Nat) := by norm_num
  simp [byteShl, Nat.shiftLeft_eq, this]
  omega

theorem and_255_of_lt {x : Nat} (h : x < 256) : x &&& 0xFF = x := by
  have h2 : x &&& 0xFF = x % 2 ^ 8 := Nat.and_pow_two_sub_one_eq_mod x 8
  rw [h2, Nat.mod_eq_of_lt (by omega)]

/-- The buggy reader in fact returns only the second byte. -/
theorem readUnsignedShort_eq (b : List Nat) (off : Nat) :
    readUnsignedShort b off = byteAt b (off + 1) := by
  rw [readUnsignedShort, byteShl_byte_eight, and_255_of_lt (byteAt_lt b (off + 1))]
  simp

/-- The buggy 32-bit reader in fact returns only the fourth byte. -/
theorem readInt_eq (b : List Nat) (off : Nat) : readInt b off = byteAt b (off + 3) := by
  rw [readInt, byteShl_byte_eight, byteShl_byte_sixteen, byteShl_byte_twentyfour,
    and_255_of_lt (byteAt_lt b (off + 3))]
  simp

/-! Constant-pool tags (`asm/symbol` package). -/

def CONSTANT_CLASS_TAG : Nat := 7
def CONSTANT_FIELDREF_TAG : Nat := 9
def CONSTANT_METHODREF_TAG : Nat := 10
def CONSTANT_INTERFACE_METHODREF_TAG : Nat := 11
def CONSTANT_STRING_TAG : Nat := 8
def CONSTANT_INTEGER_TAG : Nat := 3
def CONSTANT_FLOAT_TAG : Nat := 4
def CONSTANT_LONG_TAG : Nat := 5
def CONSTANT_DOUBLE_TAG : Nat := 6
def CONSTANT_NAME_AND_TYPE_TAG : Nat := 12
def CONSTANT_UTF8_TAG : Nat := 1
def CONSTANT_METHOD_HANDLE_TAG : Nat := 15
def CONSTANT_METHOD_TYPE_TAG : Nat := 16
def CONSTANT_INVOKE_DYNAMIC_TAG : Nat := 18
def CONSTANT_MODULE_TAG : Nat := 19
def CONSTANT_PACKAGE_TAG : Nat := 20

/-- `opcodes.V10 = 0<<16 | 54`. -/
def V10 : Nat := 0 <<< 16 ||| 54

/-- The `ClassReader` struct (the lazy `constantUtf8Values` cache is
write-once memoisation of `readUTFB` and never changes results, so it is
not carried here; `readUTF` below decodes directly). -/
structure ClassReader where
  b : List Nat
  cpInfoOffsets : List Nat
  maxStringLength : Nat
  header : Nat
deriving DecidableEq, Repr

deriving instance DecidableEq for Except

/-- The constant-pool scan loop of `classReader` (part_006 lines 129-160).
`fuel` bounds the iteration count; since `i` grows by at least 1 per step,
`constantPoolCount` iterations always suffice, which is what `classReader`
passes.  Returns (cpInfoOffsets, maxStringLength, header). -/
def cpScan (b : List Nat) (constantPoolCount : Nat) (fuel i currentCpInfoOffset : Nat)
    (offsets : List Nat) (maxStringLength : Nat) : Except String (List Nat × Nat × Nat) :=
  match fuel with
  | 0 => .error "fuel exhausted"
  | fuel + 1 =>
    if i < constantPoolCount then
      let offsets := offsets.set i (currentCpInfoOffset + 1)
      let tag := byteAt b currentCpInfoOffset
      if tag = CONSTANT_FIELDREF_TAG ∨ tag = CONSTANT_METHODREF_TAG ∨
          tag = CONSTANT_INTERFACE_METHODREF_TAG ∨ tag = CONSTANT_INTEGER_TAG ∨
          tag = CONSTANT_FLOAT_TAG ∨ tag = CONSTANT_NAME_AND_TYPE_TAG ∨
          tag = CONSTANT_INVOKE_DYNAMIC_TAG then
        cpScan b constantPoolCount fuel (i + 1) (currentCpInfoOffset + 5) offsets maxStringLength
      else if tag = CONSTANT_LONG_TAG ∨ tag = CONSTANT_DOUBLE_TAG then
        cpScan b constantPoolCount fuel (i + 2) (currentCpInfoOffset + 9) offsets maxStringLength
      else if tag = CONSTANT_UTF8_TAG then
        let cpInfoSize := 3 + readUnsignedShort b (currentCpInfoOffset + 1)
        let maxStringLength := if cpInfoSize > maxStringLength then cpInfoSize else maxStringLength
        cpScan b constantPoolCount fuel (i + 1) (currentCpInfoOffset + cpInfoSize) offsets
          maxStringLength
      else if tag = CONSTANT_METHOD_HANDLE_TAG then
        cpScan b constantPoolCount fuel (i + 1) (currentCpInfoOffset + 4) offsets maxStringLength
      else if tag = CONSTANT_CLASS_TAG ∨ tag = CONSTANT_STRING_TAG ∨
          tag = CONSTANT_METHOD_TYPE_TAG ∨ tag = CONSTANT_PACKAGE_TAG ∨
          tag = CONSTANT_MODULE_TAG then
        cpScan b constantPoolCount fuel (i + 1) (currentCpInfoOffset + 3) offsets maxStringLength
      else
        .error "Assertion Error"
    else
      .ok (offsets, maxStringLength, currentCpInfoOffset)

/-- `classReader(byteBuffer, offset, length)` (the `length` argument is
unused in the source as well). -/
def classReader (byteBuffer : List Nat) (offset length : Nat) : Except String ClassReader :=
  if readShort byteBuffer (offset + 6) > (V10 : Int) then
    .error "Illegal Argument"
  else
    let constantPoolCount := readUnsignedShort byteBuffer (offset + 8)
    match cpScan byteBuffer constantPoolCount constantPoolCount 1 (offset + 10)
        (List.replicate constantPoolCount 0) 0 with
    | .error e => .error e
    | .ok (offsets, maxLen, header) =>
      .ok { b := byteBuffer, cpInfoOffsets := offsets, maxStringLength := maxLen,
            header := header }

/-- `NewClassReader(classFile)`. -/
def NewClassReader (classFile : List Nat) : Except String ClassReader :=
  classReader classFile 0 classFile.length

/-- A minimal header whose big-endian major version (offset 6-7) is 310
(bytes 1, 54) with an empty, well-formed constant pool. -/
def hdrMajor310 : List Nat := [0xCA, 0xFE, 0xBA, 0xBE, 0, 0, 1, 54, 0, 1]

/-- Same header with major version 55. -/
def hdrMajor55 : List Nat := [0xCA, 0xFE, 0xBA, 0xBE, 0, 0, 0, 55, 0, 1]

/-- Same header with major version 54. -/
def hdrMajor54 : List Nat := [0xCA, 0xFE, 0xBA, 0xBE, 0, 0, 0, 54, 0, 1]

/-- A class whose constant pool declares 3 entries: entry 1 is a UTF8
constant whose u2 payload length is 256 (length bytes 1, 0), entry 2 would
therefore start at offset 269; the byte the code actually lands on for
"entry 2" is offset 13 (tag 3 = Integer). -/
def bufUtf8len256 : List Nat := [0, 0, 0, 0, 0, 0, 0, 54, 0, 3, 1, 1, 0, 3]

/-- A class whose first constant-pool entry has tag 0. -/
def bufTagZero : List Nat := [0, 0, 0, 0, 0, 0, 0, 54, 0, 2, 0]

/-- **C3.** The claim states that construction fails with IllegalArgument
iff the big-endian u2 major version at offset 6 exceeds 54.  The version
check `readShort(offset+6) > V10` only sees the low byte (the byte-typed
shift truncates), so a header with major = 310 (0x0136, bytes 1 and 54) is
*accepted* even though 310 > 54.  The "in particular" instances (major=55
rejected, major=54 accepted) do hold, since there the high byte is 0. -/
theorem C3_version_check_only_low_byte :
    256 * byteAt hdrMajor310 6 + byteAt hdrMajor310 7 = 310 ∧ 310 > 54 ∧
    NewClassReader hdrMajor310 =
      .ok { b := hdrMajor310, cpInfoOffsets := [0], maxStringLength := 0, header := 10 } ∧
    NewClassReader hdrMajor55 = .error "Illegal Argument" ∧
    NewClassReader hdrMajor54 =
      .ok { b := hdrMajor54, cpInfoOffsets := [0], maxStringLength := 0, header := 10 } := by
  decide

/-- **C4.** The claim states that the scan advances by 3 plus the UTF-8
payload length for a UTF8 entry (and records each entry's offset one byte
past its tag).  The payload length is read with the buggy
`readUnsignedShort`, which returns only the low length byte, so a UTF8
constant of length 256 advances the scan by 3 instead of 259: entry 2 is
recorded at offset 14 instead of 10 + (3+256) + 1 = 270.  The offset-one-
past-the-tag part and the AssertionError for tag 0 do hold (last conjunct). -/
theorem C4_utf8_entry_width_truncated :
    NewClassReader bufUtf8len256 =
      .ok { b := bufUtf8len256, cpInfoOffsets := [0, 11, 14], maxStringLength := 3,
            header := 18 } ∧
    byteAt bufUtf8len256 10 = CONSTANT_UTF8_TAG ∧
    256 * byteAt bufUtf8len256 11 + byteAt bufUtf8len256 12 = 256 ∧
    10 + (3 + 256) + 1 = 270 ∧ ¬ (270 : Nat) = 14 ∧
    NewClassReader bufTagZero = .error "Assertion Error" := by
  decide

/-- **C1.** The claim states that `readUnsignedShort(offset)` returns the
big-endian value `256*b[offset] + b[offset+1]`, that `readShort` returns that
value reinterpreted as a signed 16-bit integer, and that `readInt` assembles
the big-endian 32-bit value of `b[offset..offset+3]`.  The source shifts Go
`byte`-typed operands, which truncates every shifted term to 8 bits, so each
reader returns only its **last** byte: on the buffer `[1, 2]` the code yields
2 instead of the claimed 258; on `[0xFF, 0xFE]` `readShort` yields 254
instead of the claimed -2; on `[1, 2, 3, 4]` `readInt` yields 4 instead of
the claimed 0x01020304. -/
theorem C1_readers_not_big_endian :
    readUnsignedShort [1, 2] 0 = 2 ∧ 256 * 1 + 2 = 258 ∧ ¬ readUnsignedShort [1, 2] 0 = 258 ∧
    readShort [255, 254] 0 = 254 ∧ toInt16 (256 * 255 + 254) = -2 ∧
      ¬ readShort [255, 254] 0 = -2 ∧
    readInt [1, 2, 3, 4] 0 = 4 ∧ ¬ readInt [1, 2, 3, 4] 0 = 0x01020304 := by
  decide

/-! Label model (`asm/label.go`).  Only the fields the embedded reader code
touches are carried (`info`, `frame`, edge and work-list pointers are never
used by the parsing paths verified here).  `flags` is an `int16` in the
source whose value always stays in `[0, 256)`; clearing a bit with
`flags &= ^FLAG` is the 16-bit AND with the complement mask. -/

def FLAG_DEBUG_ONLY : Nat := 1
def FLAG_JUMP_TARGET : Nat := 2
def FLAG_RESOLVED : Nat := 4
def FLAG_REACHABLE : Nat := 8
def LINE_NUMBERS_CAPACITY_INCREMENT : Nat := 4
def VALUES_CAPACITY_INCREMENT : Nat := 6
def FORWARD_REFERENCE_TYPE_MASK : Nat := 0xF0000000
def FORWARD_REFERENCE_TYPE_SHORT : Nat := 0x10000000
def FORWARD_REFERENCE_TYPE_WIDE : Nat := 0x20000000
def FORWARD_REFERENCE_HANDLE_MASK : Nat := 0x0FFFFFFF

structure LabelS where
  flags : Nat := 0
  lineNumber : Nat := 0
  otherLineNumbers : Option (List Nat) := none
  bytecodeOffset : Nat := 0
  valueCount : Nat := 0
  values : List Nat := []
deriving DecidableEq, Repr

/-- `Label.addLineNumber` (values fed by the reader are always < 256, so
the `int16` store is value-preserving).  Note the source reads the count in
slot 0 *before* incrementing and then stores at that old count, so the
first extra line number overwrites the counter slot. -/
def addLineNumber (l : LabelS) (lineNumber : Nat) : LabelS :=
  if l.lineNumber = 0 then
    { l with lineNumber := lineNumber }
  else
    let arr := l.otherLineNumbers.getD (List.replicate LINE_NUMBERS_CAPACITY_INCREMENT 0)
    let otherLineNumberCount := arr.getD 0 0
    let arr := arr.set 0 (otherLineNumberCount + 1)
    let arr :=
      if otherLineNumberCount ≥ arr.length then arr ++ List.replicate VALUES_CAPACITY_INCREMENT 0
      else arr
    { l with otherLineNumbers := some (arr.set otherLineNumberCount lineNumber) }

/-- `Label.addForwardReference`. -/
def addForwardReference (l : LabelS) (sourceInsnBytecodeOffset referenceType referenceHandle : Nat) :
    LabelS :=
  let values := if l.values = [] then List.replicate VALUES_CAPACITY_INCREMENT 0 else l.values
  let values :=
    if l.valueCount ≥ values.length then values ++ List.replicate VALUES_CAPACITY_INCREMENT 0
    else values
  let values := values.set l.valueCount sourceInsnBytecodeOffset
  let values := values.set (l.valueCount + 1) (referenceType ||| referenceHandle)
  { l with values := values, valueCount := l.valueCount + 2 }

/-- Opcode constants referenced by `Label.resolve` (`asm/opcodes`,
`asm/constants`). -/
def IFNULL : Nat := 198
def IFNONNULL : Nat := 199
def ASM_OPCODE_DELTA : Nat := 49
def ASM_IFNULL_OPCODE_DELTA : Nat := 20

/-- The forward-reference loop of `Label.resolve` (lines 109-136): `i`
walks `values` two at a time up to `valueCount`; `fuel` bounds the
iterations (`valueCount` always suffices). -/
def resolveRefs (values : List Nat) (bytecodeOffset : Nat) (valueCount : Nat) (fuel i : Nat)
    (code : List Nat) (hasAsmInstructions : Bool) : List Nat × Bool :=
  match fuel with
  | 0 => (code, hasAsmInstructions)
  | fuel + 1 =>
    if i < valueCount then
      let sourceInsnBytecodeOffset := values.getD i 0
      let reference := values.getD (i + 1) 0
      let relativeOffset : Int := (bytecodeOffset : Int) - (sourceInsnBytecodeOffset : Int)
      let handle := reference &&& FORWARD_REFERENCE_HANDLE_MASK
      if reference &&& FORWARD_REFERENCE_HANDLE_MASK = FORWARD_REFERENCE_TYPE_SHORT then
        -- source bug kept as is: the guard masks with the HANDLE mask, so it
        -- can never equal FORWARD_REFERENCE_TYPE_SHORT and this branch is dead
        let (code, hasAsmInstructions) :=
          if relativeOffset < -32768 ∨ relativeOffset > 32767 then
            let opcode := byteAt code sourceInsnBytecodeOffset &&& 0xFF
            let code :=
              if opcode < IFNULL then
                code.set sourceInsnBytecodeOffset ((opcode + ASM_OPCODE_DELTA) % 256)
              else
                code.set sourceInsnBytecodeOffset ((opcode + ASM_IFNULL_OPCODE_DELTA) % 256)
            (code, true)
          else (code, hasAsmInstructions)
        let code := code.set handle (toByte (asr relativeOffset 8))
        let code := code.set (handle + 1) (toByte relativeOffset)
        resolveRefs values bytecodeOffset valueCount fuel (i + 2) code hasAsmInstructions
      else
        -- source bug kept as is: shifts by 14 where a big-endian write needs 24
        let code := code.set handle (toByte (asr relativeOffset 14))
        let code := code.set (handle + 1) (toByte (asr relativeOffset 16))
        let code := code.set (handle + 2) (toByte (asr relativeOffset 8))
        let code := code.set (handle + 3) (toByte relativeOffset)
        resolveRefs values bytecodeOffset valueCount fuel (i + 2) code hasAsmInstructions
    else (code, hasAsmInstructions)

/-- `Label.resolve(code, bytecodeOffset)`; returns the updated label, the
updated code array and the `hasAsmInstructions` flag. -/
def resolve (l : LabelS) (code : List Nat) (bytecodeOffset : Nat) :
    LabelS × List Nat × Bool :=
  let l := { l with flags := l.flags ||| FLAG_RESOLVED, bytecodeOffset := bytecodeOffset }
  let (code, hasAsmInstructions) :=
    resolveRefs l.values bytecodeOffset l.valueCount l.valueCount 0 code false
  (l, code, hasAsmInstructions)

/-- **C5.** The claim describes `resolve`: a SHORT forward reference whose
displacement fits in 16 bits gets a 2-byte big-endian write at its handle;
an out-of-range SHORT reference additionally rewrites the source opcode to
its ASM form and makes `resolve` return true; a WIDE reference gets a
4-byte big-endian write.  In the source the SHORT test masks the reference
with `FORWARD_REFERENCE_HANDLE_MASK` (instead of the TYPE mask), which can
never equal `FORWARD_REFERENCE_TYPE_SHORT`, so *every* reference takes the
4-byte path, whose first write also shifts by 14 instead of 24.  Hence:
a SHORT reference (type nibble 0x1) with handle 4 and displacement 2 writes
the 4 bytes 0,0,0,2 at offsets 4..7 (the claim expects bytes 0,2 at 4..5
and offsets 6..7 untouched, i.e. 0xAA); with displacement 40000 (out of
signed-16-bit range) the source opcode at offset 0 stays GOTO=167 and the
function returns false (the claim expects a rewrite to 167+49 and true).
Resolution flag and offset recording do match the claim. -/
theorem C5_resolve_short_references_take_wide_path :
    0x10000004 &&& FORWARD_REFERENCE_TYPE_MASK = FORWARD_REFERENCE_TYPE_SHORT ∧
    resolve { valueCount := 2, values := [0, 0x10000004] } (List.replicate 8 0xAA) 2 =
      ({ flags := FLAG_RESOLVED, bytecodeOffset := 2, valueCount := 2,
         values := [0, 0x10000004] },
       [0xAA, 0xAA, 0xAA, 0xAA, 0, 0, 0, 2], false) ∧
    ¬ (resolve { valueCount := 2, values := [0, 0x10000004] }
        (List.replicate 8 0xAA) 2).2.1 = [0xAA, 0xAA, 0xAA, 0xAA, 0, 2, 0xAA, 0xAA] ∧
    resolve { valueCount := 2, values := [0, 0x10000004] } [167, 0, 0, 0, 0, 0, 0, 0] 40000 =
      ({ flags := FLAG_RESOLVED, bytecodeOffset := 40000, valueCount := 2,
         values := [0, 0x10000004] },
       [167, 0, 0, 0, 2, 0, 156, 64], false) := by
  decide

/-! Label tables: `ClassReader.readLabel`, `createLabel`, `createDebugLabel`
(part_006 lines 1434-1451).  A table slot models the `*Label` pointer; a
label is "the same object" as long as its slot is never overwritten with a
freshly allocated label. -/

abbrev LTable := List (Option LabelS)

/-- `readLabel`: allocate an empty label if the slot is nil, then return the
slot's label. -/
def readLabel (bytecodeOffset : Nat) (labels : LTable) : LabelS × LTable :=
  match (labels : List (Option LabelS)).getD bytecodeOffset none with
  | none => ({}, List.set (labels : List (Option LabelS)) bytecodeOffset (some {}))
  | some l => (l, labels)

/-- `createLabel`: `readLabel` then `label.flags &= ^FLAG_DEBUG_ONLY`
(16-bit complement of 1 is 0xFFFE). -/
def createLabel (bytecodeOffset : Nat) (labels : LTable) : LabelS × LTable :=
  let r := readLabel bytecodeOffset labels
  let label := { r.1 with flags := r.1.flags &&& 0xFFFE }
  (label, List.set (r.2 : List (Option LabelS)) bytecodeOffset (some label))

/-- `createDebugLabel`: only when the slot is still nil, allocate via
`readLabel` and set FLAG_DEBUG_ONLY. -/
def createDebugLabel (bytecodeOffset : Nat) (labels : LTable) : LTable :=
  match (labels : List (Option LabelS)).getD bytecodeOffset none with
  | none =>
    let r := readLabel bytecodeOffset labels
    List.set (r.2 : List (Option LabelS)) bytecodeOffset
      (some { r.1 with flags := r.1.flags ||| FLAG_DEBUG_ONLY })
  | some _ => labels

/-- **C10.** Once a slot of the label table holds a label it is never
replaced: `readLabel` returns it and leaves the table unchanged,
`createLabel` returns the same label with only FLAG_DEBUG_ONLY cleared (the
slot keeps that label), and `createDebugLabel` leaves the table (hence the
label's flags) completely unchanged.  Moreover the label returned by
`createLabel` always has FLAG_DEBUG_ONLY cleared. -/
theorem C10_labels_never_replaced (labels : LTable) (off : Nat) (l : LabelS)
    (h : (labels : List (Option LabelS)).getD off none = some l) :
    readLabel off labels = (l, labels) ∧
    createLabel off labels =
      ({ l with flags := l.flags &&& 0xFFFE },
       List.set (labels : List (Option LabelS)) off
         (some { l with flags := l.flags &&& 0xFFFE })) ∧
    createDebugLabel off labels = labels ∧
    (∀ labels2 : LTable, ∀ off2 : Nat,
      (createLabel off2 labels2).1.flags &&& FLAG_DEBUG_ONLY = 0) := by
  have h' : ((labels : List (Option LabelS))[off]?).getD none = some l := by
    simpa [List.getD] using h
  refine ⟨?_, ?_, ?_, ?_⟩
  · simp [readLabel, h']
  · simp [createLabel, readLabel, h']
  · simp [createDebugLabel, h']
  · intro labels2 off2
    have hmask : ∀ x : Nat, (x &&& 0xFFFE) &&& FLAG_DEBUG_ONLY = 0 := by
      intro x
      rw [Nat.and_assoc]
      norm_num [FLAG_DEBUG_ONLY]
    unfold createLabel
    exact hmask _

/-- Witness for C10 at a concrete occupied slot. -/
theorem C10_labels_never_replaced_witness :
    ([some { flags := 3 }] : List (Option LabelS)).getD 0 none = some { flags := 3 } ∧
    readLabel 0 ([some { flags := 3 }] : LTable) = ({ flags := 3 }, [some { flags := 3 }]) :=
  ⟨rfl, (C10_labels_never_replaced ([some { flags := 3 }] : LTable) 0 { flags := 3 } rfl).1⟩

/-! Modified-UTF-8 decoding (`readUTFB`, `readUTF`, `readUTF8`,
`readStringish`, `readClass`, `readModuleB`, `readPackage`).  Strings are
modelled as lists of rune code points.  The scratch `charBuffer` only
provides capacity in the source and is not modelled; the lazy
`constantUtf8Values` cache is write-once memoisation of `readUTFB` and is
elided (decoding is repeated instead, with identical results). -/

/-- Go addition of two `byte`-typed operands (wraps to 8 bits). -/
def byteAdd (x y : Nat) : Nat := (x + y) % 256

/-- Rune list of a Lean string literal, for comparisons with Go string
literals such as attribute names. -/
def rstr (s : String) : List Nat := s.data.map Char.toNat

/-- The decode loop of `readUTFB`.  Note the source computes the two- and
three-byte cases with `byte`-typed shifts and additions, which wrap to 8
bits; this is translated exactly.  `fuel` bounds iterations
(`endOffset - currentOffset` suffices since each step advances). -/
def readUTFBLoop (b : List Nat) (fuel currentOffset endOffset : Nat) (acc : List Nat) :
    List Nat :=
  match fuel with
  | 0 => acc
  | fuel + 1 =>
    if currentOffset < endOffset then
      let currentByte := byteAt b currentOffset
      if currentByte &&& 0x80 = 0 then
        readUTFBLoop b fuel (currentOffset + 1) endOffset (acc ++ [currentByte &&& 0x7F])
      else if currentByte &&& 0xE0 = 0xC0 then
        readUTFBLoop b fuel (currentOffset + 2) endOffset
          (acc ++ [byteAdd (byteShl (currentByte &&& 0x1F) 6)
            (byteAt b (currentOffset + 1) &&& 0x3F)])
      else
        let d := byteAdd (byteShl (currentByte &&& 0xF) 12)
          (byteShl (byteAt b (currentOffset + 1) &&& 0x3F) 6)
        readUTFBLoop b fuel (currentOffset + 3) endOffset
          (acc ++ [byteAdd d (byteAt b (currentOffset + 2) &&& 0x3F)])
    else acc

/-- `readUTFB(utfOffset, utfLength, charBuffer)`. -/
def readUTFB (b : List Nat) (utfOffset utfLength : Nat) : List Nat :=
  readUTFBLoop b utfLength utfOffset (utfOffset + utfLength) []

/-- `readUTF(constantPoolEntryIndex, charBuffer)` without the write-once
cache. -/
def readUTF (c : ClassReader) (constantPoolEntryIndex : Nat) : List Nat :=
  let cpInfoOffset := c.cpInfoOffsets.getD constantPoolEntryIndex 0
  readUTFB c.b (cpInfoOffset + 2) (readUnsignedShort c.b cpInfoOffset)

/-- `readUTF8(offset, charBuffer)`. -/
def readUTF8 (c : ClassReader) (offset : Nat) : List Nat :=
  let constantPoolEntryIndex := readUnsignedShort c.b offset
  if offset = 0 ∨ constantPoolEntryIndex = 0 then []
  else readUTF c constantPoolEntryIndex

/-- `readStringish(offset, charBuffer)`. -/
def readStringish (c : ClassReader) (offset : Nat) : List Nat :=
  readUTF8 c (c.cpInfoOffsets.getD (readUnsignedShort c.b offset) 0)

/-- `readClass`. -/
def readClass (c : ClassReader) (offset : Nat) : List Nat := readStringish c offset

/-- `readModuleB`. -/
def readModuleB (c : ClassReader) (offset : Nat) : List Nat := readStringish c offset

/-- `readPackage`. -/
def readPackage (c : ClassReader) (offset : Nat) : List Nat := readStringish c offset

/-! JVM opcode constants (`asm/opcodes` and the duplicate list in
`asm/constants`; identical values). -/

def NOP : Nat := 0
def ACONST_NULL : Nat := 1
def ICONST_M1 : Nat := 2
def ICONST_0 : Nat := 3
def ICONST_1 : Nat := 4
def ICONST_2 : Nat := 5
def ICONST_3 : Nat := 6
def ICONST_4 : Nat := 7
def ICONST_5 : Nat := 8
def LCONST_0 : Nat := 9
def LCONST_1 : Nat := 10
def FCONST_0 : Nat := 11
def FCONST_1 : Nat := 12
def FCONST_2 : Nat := 13
def DCONST_0 : Nat := 14
def DCONST_1 : Nat := 15
def BIPUSH : Nat := 16
def SIPUSH : Nat := 17
def LDC : Nat := 18
def LDC_W : Nat := 19
def LDC2_W : Nat := 20
def ILOAD : Nat := 21
def LLOAD : Nat := 22
def FLOAD : Nat := 23
def DLOAD : Nat := 24
def ALOAD : Nat := 25
def ILOAD_0 : Nat := 26
def ILOAD_1 : Nat := 27
def ILOAD_2 : Nat := 28
def ILOAD_3 : Nat := 29
def LLOAD_0 : Nat := 30
def LLOAD_1 : Nat := 31
def LLOAD_2 : Nat := 32
def LLOAD_3 : Nat := 33
def FLOAD_0 : Nat := 34
def FLOAD_1 : Nat := 35
def FLOAD_2 : Nat := 36
def FLOAD_3 : Nat := 37
def DLOAD_0 : Nat := 38
def DLOAD_1 : Nat := 39
def DLOAD_2 : Nat := 40
def DLOAD_3 : Nat := 41
def ALOAD_0 : Nat := 42
def ALOAD_1 : Nat := 43
def ALOAD_2 : Nat := 44
def ALOAD_3 : Nat := 45
def IALOAD : Nat := 46
def LALOAD : Nat := 47
def FALOAD : Nat := 48
def DALOAD : Nat := 49
def AALOAD : Nat := 50
def BALOAD : Nat := 51
def CALOAD : Nat := 52
def SALOAD : Nat := 53
def ISTORE : Nat := 54
def LSTORE : Nat := 55
def FSTORE : Nat := 56
def DSTORE : Nat := 57
def ASTORE : Nat := 58
def ISTORE_0 : Nat := 59
def ISTORE_1 : Nat := 60
def ISTORE_2 : Nat := 61
def ISTORE_3 : Nat := 62
def LSTORE_0 : Nat := 63
def LSTORE_1 : Nat := 64
def LSTORE_2 : Nat := 65
def LSTORE_3 : Nat := 66
def FSTORE_0 : Nat := 67
def FSTORE_1 : Nat := 68
def FSTORE_2 : Nat := 69
def FSTORE_3 : Nat := 70
def DSTORE_0 : Nat := 71
def DSTORE_1 : Nat := 72
def DSTORE_2 : Nat := 73
def DSTORE_3 : Nat := 74
def ASTORE_0 : Nat := 75
def ASTORE_1 : Nat := 76
def ASTORE_2 : Nat := 77
def ASTORE_3 : Nat := 78
def IASTORE : Nat := 79
def LASTORE : Nat := 80
def FASTORE : Nat := 81
def DASTORE : Nat := 82
def AASTORE : Nat := 83
def BASTORE : Nat := 84
def CASTORE : Nat := 85
def SASTORE : Nat := 86
def POP : Nat := 87
def POP2 : Nat := 88
def DUP : Nat := 89
def DUP_X1 : Nat := 90
def DUP_X2 : Nat := 91
def DUP2 : Nat := 92
def DUP2_X1 : Nat := 93
def DUP2_X2 : Nat := 94
def SWAP : Nat := 95
def IADD : Nat := 96
def LADD : Nat := 97
def FADD : Nat := 98
def DADD : Nat := 99
def ISUB : Nat := 100
def LSUB : Nat := 101
def FSUB : Nat := 102
def DSUB : Nat := 103
def IMUL : Nat := 104
def LMUL : Nat := 105
def FMUL : Nat := 106
def DMUL : Nat := 107
def IDIV : Nat := 108
def LDIV : Nat := 109
def FDIV : Nat := 110
def DDIV : Nat := 111
def IREM : Nat := 112
def LREM : Nat := 113
def FREM : Nat := 114
def DREM : Nat := 115
def INEG : Nat := 116
def LNEG : Nat := 117
def FNEG : Nat := 118
def DNEG : Nat := 119
def ISHL : Nat := 120
def LSHL : Nat := 121
def ISHR : Nat := 122
def LSHR : Nat := 123
def IUSHR : Nat := 124
def LUSHR : Nat := 125
def IAND : Nat := 126
def LAND : Nat := 127
def IOR : Nat := 128
def LOR : Nat := 129
def IXOR : Nat := 130
def LXOR : Nat := 131
def IINC : Nat := 132
def I2L : Nat := 133
def I2F : Nat := 134
def I2D : Nat := 135
def L2I : Nat := 136
def L2F : Nat := 137
def L2D : Nat := 138
def F2I : Nat := 139
def F2L : Nat := 140
def F2D : Nat := 141
def D2I : Nat := 142
def D2L : Nat := 143
def D2F : Nat := 144
def I2B : Nat := 145
def I2C : Nat := 146
def I2S : Nat := 147
def LCMP : Nat := 148
def FCMPL : Nat := 149
def FCMPG : Nat := 150
def DCMPL : Nat := 151
def DCMPG : Nat := 152
def IFEQ : Nat := 153
def IFNE : Nat := 154
def IFLT : Nat := 155
def IFGE : Nat := 156
def IFGT : Nat := 157
def IFLE : Nat := 158
def IF_ICMPEQ : Nat := 159
def IF_ICMPNE : Nat := 160
def IF_ICMPLT : Nat := 161
def IF_ICMPGE : Nat := 162
def IF_ICMPGT : Nat := 163
def IF_ICMPLE : Nat := 164
def IF_ACMPEQ : Nat := 165
def IF_ACMPNE : Nat := 166
def GOTO : Nat := 167
def JSR : Nat := 168
def RET : Nat := 169
def TABLESWITCH : Nat := 170
def LOOKUPSWITCH : Nat := 171
def IRETURN : Nat := 172
def LRETURN : Nat := 173
def FRETURN : Nat := 174
def DRETURN : Nat := 175
def ARETURN : Nat := 176
def RETURN : Nat := 177
def GETSTATIC : Nat := 178
def PUTSTATIC : Nat := 179
def GETFIELD : Nat := 180
def PUTFIELD : Nat := 181
def INVOKEVIRTUAL : Nat := 182
def INVOKESPECIAL : Nat := 183
def INVOKESTATIC : Nat := 184
def INVOKEINTERFACE : Nat := 185
def INVOKEDYNAMIC : Nat := 186
def NEW : Nat := 187
def NEWARRAY : Nat := 188
def ANEWARRAY : Nat := 189
def ARRAYLENGTH : Nat := 190
def ATHROW : Nat := 191
def CHECKCAST : Nat := 192
def INSTANCEOF : Nat := 193
def MONITORENTER : Nat := 194
def MONITOREXIT : Nat := 195
def WIDE : Nat := 196
def MULTIANEWARRAY : Nat := 197
def GOTO_W : Nat := 200
def JSR_W : Nat := 201

/-- `constants.WIDE_JUMP_OPCODE_DELTA = GOTO_W - GOTO`. -/
def WIDE_JUMP_OPCODE_DELTA : Nat := GOTO_W - GOTO

def ASM_IFEQ : Nat := IFEQ + ASM_OPCODE_DELTA
def ASM_IFNE : Nat := IFNE + ASM_OPCODE_DELTA
def ASM_IFLT : Nat := IFLT + ASM_OPCODE_DELTA
def ASM_IFGE : Nat := IFGE + ASM_OPCODE_DELTA
def ASM_IFGT : Nat := IFGT + ASM_OPCODE_DELTA
def ASM_IFLE : Nat := IFLE + ASM_OPCODE_DELTA
def ASM_IF_ICMPEQ : Nat := IF_ICMPEQ + ASM_OPCODE_DELTA
def ASM_IF_ICMPNE : Nat := IF_ICMPNE + ASM_OPCODE_DELTA
def ASM_IF_ICMPLT : Nat := IF_ICMPLT + ASM_OPCODE_DELTA
def ASM_IF_ICMPGE : Nat := IF_ICMPGE + ASM_OPCODE_DELTA
def ASM_IF_ICMPGT : Nat := IF_ICMPGT + ASM_OPCODE_DELTA
def ASM_IF_ICMPLE : Nat := IF_ICMPLE + ASM_OPCODE_DELTA
def ASM_IF_ACMPEQ : Nat := IF_ACMPEQ + ASM_OPCODE_DELTA
def ASM_IF_ACMPNE : Nat := IF_ACMPNE + ASM_OPCODE_DELTA
def ASM_GOTO : Nat := GOTO + ASM_OPCODE_DELTA
def ASM_JSR : Nat := JSR + ASM_OPCODE_DELTA
def ASM_IFNULL : Nat := IFNULL + ASM_IFNULL_OPCODE_DELTA
def ASM_IFNONNULL : Nat := IFNONNULL + ASM_IFNULL_OPCODE_DELTA
def ASM_GOTO_W : Nat := 220

/-- `constants.F_INSERT`. -/
def F_INSERT : Int := 256

def F_NEW : Int := -1
def F_FULL : Int := 0
def F_APPEND : Int := 1
def F_CHOP : Int := 2
def F_SAME : Int := 3
def F_SAME1 : Int := 4

/-- Parse option flags of `ClassReader`. -/
def SKIP_CODE : Nat := 1
def SKIP_DEBUG : Nat := 2
def SKIP_FRAMES : Nat := 4
def EXPAND_FRAMS : Nat := 8
def EXPAND_ASM_INSNS : Nat := 256

def ACC_DEPRECATED : Nat := 0x20000
def ACC_SYNTHETIC : Nat := 0x1000
def ACC_STATIC : Nat := 0x0008

/-! Type-annotation target kinds (`asm/typereference`), prefixed `TR_` to
avoid clashing with the opcode names above. -/

def TR_CLASS_TYPE_PARAMETER : Nat := 0x00
def TR_METHOD_TYPE_PARAMETER : Nat := 0x01
def TR_CLASS_EXTENDS : Nat := 0x10
def TR_CLASS_TYPE_PARAMETER_BOUND : Nat := 0x11
def TR_METHOD_TYPE_PARAMETER_BOUND : Nat := 0x12
def TR_FIELD : Nat := 0x13
def TR_METHOD_RETURN : Nat := 0x14
def TR_METHOD_RECEIVER : Nat := 0x15
def TR_METHOD_FORMAL_PARAMETER : Nat := 0x16
def TR_THROWS : Nat := 0x17
def TR_LOCAL_VARIABLE : Nat := 0x40
def TR_RESOURCE_VARIABLE : Nat := 0x41
def TR_EXCEPTION_PARAMETER : Nat := 0x42
def TR_INSTANCEOF : Nat := 0x43
def TR_NEW : Nat := 0x44
def TR_CONSTRUCTOR_REFERENCE : Nat := 0x45
def TR_METHOD_REFERENCE : Nat := 0x46
def TR_CAST : Nat := 0x47
def TR_CONSTRUCTOR_INVOCATION_TYPE_ARGUMENT : Nat := 0x48
def TR_METHOD_INVOCATION_TYPE_ARGUMENT : Nat := 0x49
def TR_CONSTRUCTOR_REFERENCE_TYPE_ARGUMENT : Nat := 0x4A
def TR_METHOD_REFERENCE_TYPE_ARGUMENT : Nat := 0x4B

/-- Modelled from the spec: the `asm/frame` package with the JVMS
verification-type and stack-map-frame tag constants is referenced by
part_006 but its source file is not under src/; these are the JVMS values
the spec's stack-map section describes (ITEM_TOP..ITEM_UNINITIALIZED = 0..8,
SAME_LOCALS_1_STACK_ITEM_FRAME = 64, RESERVED = 128,
SAME_LOCALS_1_STACK_ITEM_FRAME_EXTENDED = 247, CHOP_FRAME = 248,
SAME_FRAME_EXTENDED = 251, FULL_FRAME = 255). -/
def ITEM_TOP : Nat := 0
def ITEM_INTEGER : Nat := 1
def ITEM_FLOAT : Nat := 2
def ITEM_DOUBLE : Nat := 3
def ITEM_LONG : Nat := 4
def ITEM_NULL : Nat := 5
def ITEM_UNINITIALIZED_THIS : Nat := 6
def ITEM_OBJECT : Nat := 7
def ITEM_UNINITIALIZED : Nat := 8
def SAME_LOCALS_1_STACK_ITEM_FRAME : Nat := 64
def RESERVED : Nat := 128
def SAME_LOCALS_1_STACK_ITEM_FRAME_EXTENDED : Nat := 247
def CHOP_FRAME : Nat := 248
def SAME_FRAME_EXTENDED : Nat := 251
def FULL_FRAME : Nat := 255

/-- A verification-type slot in the frame scratch arrays: the source stores
Go `interface{}` values (the Opcodes item boxes, an internal-name string, or
a `*Label` for ITEM_UNINITIALIZED); `fnil` is the zero value of a freshly
allocated slot. -/
inductive FrameItem where
  | fnil
  | top
  | integer
  | float
  | double
  | long
  | null
  | uninitializedThis
  | object (name : List Nat)
  | uninitialized (label : Nat)
deriving DecidableEq, Repr

/-- A constant resolved by `readConst`.  `knil` is the Go nil interface
(the callers of `readConst` in `readCode` ignore its error and pass the nil
result on).  Float/double conversions carry their integer operands; the
numeric conversion itself plays no role in any claim. -/
inductive ConstVal where
  | knil
  | kint (v : Nat)
  | kfloat (v : Nat)
  | klong (v : Nat)
  | kdouble (v : Nat)
  | kclass (name : List Nat)
  | kstring (s : List Nat)
  | kmethodtype (descriptor : List Nat)
  | khandle (tag : Nat) (owner name descriptor : List Nat) (isInterface : Bool)
deriving DecidableEq, Repr

/-- `readConst(constantPoolEntryIndex, charBuffer)`. -/
def readConst (c : ClassReader) (constantPoolEntryIndex : Nat) : Except String ConstVal :=
  let cpInfoOffset := c.cpInfoOffsets.getD constantPoolEntryIndex 0
  let tag := byteAt c.b (cpInfoOffset - 1)
  if tag = CONSTANT_INTEGER_TAG then .ok (.kint (readInt c.b cpInfoOffset))
  else if tag = CONSTANT_FLOAT_TAG then .ok (.kfloat (readInt c.b cpInfoOffset))
  else if tag = CONSTANT_LONG_TAG then .ok (.klong (readLong c.b cpInfoOffset))
  else if tag = CONSTANT_DOUBLE_TAG then .ok (.kdouble (readLong c.b cpInfoOffset))
  else if tag = CONSTANT_CLASS_TAG then .ok (.kclass (readUTF8 c cpInfoOffset))
  else if tag = CONSTANT_STRING_TAG then .ok (.kstring (readUTF8 c cpInfoOffset))
  else if tag = CONSTANT_METHOD_TYPE_TAG then .ok (.kmethodtype (readUTF8 c cpInfoOffset))
  else if tag = CONSTANT_METHOD_HANDLE_TAG then
    let referenceKind := readByte c.b cpInfoOffset
    let referenceCpInfoOffset := c.cpInfoOffsets.getD (readUnsignedShort c.b (cpInfoOffset + 1)) 0
    let nameAndTypeCpInfoOffset :=
      c.cpInfoOffsets.getD (readUnsignedShort c.b (referenceCpInfoOffset + 2)) 0
    let owner := readClass c referenceCpInfoOffset
    let name := readUTF8 c nameAndTypeCpInfoOffset
    let desc := readUTF8 c (nameAndTypeCpInfoOffset + 2)
    let itf := byteAt c.b (referenceCpInfoOffset - 1) = CONSTANT_INTERFACE_METHODREF_TAG
    .ok (.khandle referenceKind owner name desc itf)
  else .error "Assertion Error"

/-- One visitor callback in the event trace of a method or class visit.
`*Label` arguments are identified by their bytecode offset (the slot in the
per-method label table); an `Option Nat` label is `none` when the source
passes a nil `*Label`. -/
inductive VisitEvent where
  | visitAnnot (descriptor : List Nat) (visible : Bool)
  | visitTypeAnnot (typeRef : Nat) (typePath : Option Nat) (descriptor : List Nat) (visible : Bool)
  | visitTryCatchBlock (startL endL handlerL : Nat) (catchType : List Nat)
  | visitTryCatchAnnot (typeRef : Nat) (typePath : Option Nat) (descriptor : List Nat)
      (visible : Bool)
  | visitFrame (ftype : Int) (nLocal : Int) (locals : Option (List FrameItem)) (nStack : Int)
      (stack : Option (List FrameItem))
  | visitLabel (off : Nat)
  | visitLineNumber (line : Nat) (off : Nat)
  | visitInsn (opcode : Nat)
  | visitIntInsn (opcode : Nat) (operand : Int)
  | visitVarInsn (opcode : Nat) (varIndex : Nat)
  | visitTypeInsn (opcode : Nat) (typeName : List Nat)
  | visitFieldInsn (opcode : Nat) (owner name descriptor : List Nat)
  | visitMethodInsn (opcode : Nat) (owner name descriptor : List Nat) (isInterface : Bool)
  | visitInvokeDynamicInsn (name descriptor : List Nat) (handle : ConstVal)
      (args : List ConstVal)
  | visitJumpInsn (opcode : Nat) (label : Nat)
  | visitLdcInsn (value : ConstVal)
  | visitIincInsn (varIndex : Nat) (increment : Int)
  | visitTableSwitchInsn (lo hi : Nat) (dflt : Nat) (table : List Nat)
  | visitLookupSwitchInsn (dflt : Nat) (keys : List Nat) (labels : List Nat)
  | visitMultiANewArrayInsn (descriptor : List Nat) (numDimensions : Nat)
  | visitInsnAnnot (typeRef : Nat) (typePath : Option Nat) (descriptor : List Nat)
      (visible : Bool)
  | visitLocalVariable (name descriptor signature : List Nat) (startL endL : Option Nat)
      (index : Nat)
  | visitLocalVariableAnnot (typeRef : Nat) (typePath : Option Nat) (starts ends : List Nat)
      (index : List Nat) (descriptor : List Nat) (visible : Bool)
  | visitAttr (name : List Nat)
  | visitMaxs (maxStack maxLocals : Nat)
deriving DecidableEq, Repr

/-- Is the event a `VisitTryCatchBlock`? -/
def VisitEvent.isTCB : VisitEvent → Bool
  | .visitTryCatchBlock _ _ _ _ => true
  | _ => false

/-- Is the event a `VisitLabel`? -/
def VisitEvent.isLabelEv : VisitEvent → Bool
  | .visitLabel _ => true
  | _ => false

/-- An opaque attribute node built by `readAttribute` (`Attribute.read`
allocates a zeroed content array of the given length; the copy from the
class buffer is commented out in the source). -/
structure AttributeS where
  typed : List Nat
  contentLength : Nat
deriving DecidableEq, Repr

/-- The mutable state threaded through the embedded reader: the reader
itself (byte buffer and constant-pool index; written by nothing below), the
per-method label table, the event trace, a pending panic, and the `Context`
scratch fields used by `readCode`. -/
structure RState where
  c : ClassReader
  labels : LTable := []
  events : List VisitEvent := []
  err : Option String := none
  parsingOptions : Nat := 0
  bootstrapMethodOffsets : List Nat := []
  currentMethodAccessFlags : Nat := 0
  currentMethodName : List Nat := []
  currentMethodDescriptor : List Nat := []
  currentTypeAnnotTarget : Nat := 0
  currentTypeAnnotTargetPath : Option Nat := none
  currentLvaStarts : List Nat := []
  currentLvaEnds : List Nat := []
  currentLvaIndices : List Nat := []
  currentFrameOffset : Int := 0
  currentFrameType : Int := 0
  currentFrameLocalCount : Int := 0
  currentFrameLocalCountDelta : Int := 0
  currentFrameLocalTypes : List FrameItem := []
  currentFrameStackCount : Int := 0
  currentFrameStackTypes : List FrameItem := []
deriving Repr

/-- Append one visitor event to the trace.  After a panic has been
recorded nothing more is emitted (a Go panic unwinds the whole call). -/
def emit (s : RState) (e : VisitEvent) : RState :=
  if s.err.isSome then s else { s with events := s.events ++ [e] }

/-- Record a panic (the first one wins). -/
def setErr (s : RState) (msg : String) : RState :=
  if s.err.isSome then s else { s with err := some msg }

/-! `readElementValues` / `readElementValue` with a nil annotation visitor
(part_006 lines 1600-1634).  All annotation sub-visitors are modelled as
nil, as the bundled demo visitor returns; with a nil visitor the source only
computes the width of the element_value structure.  The mutual recursion is
bounded by `fuel`; callers pass a generous bound (every recursive call in
the source advances the offset, so `b.length + 8` suffices for any
in-bounds input). -/

mutual

def skipElementValues (b : List Nat) (fuel : Nat) (annotationOffset : Nat) (named : Bool) :
    Nat :=
  match fuel with
  | 0 => annotationOffset
  | fuel + 1 =>
    skipPairs b fuel (readUnsignedShort b annotationOffset) (annotationOffset + 2) named
termination_by (fuel, 0)

def skipPairs (b : List Nat) (fuel : Nat) (numElementValuePairs off : Nat) (named : Bool) :
    Nat :=
  match fuel with
  | 0 => off
  | fuel + 1 =>
    match numElementValuePairs with
    | 0 => off
    | n + 1 =>
      if named then skipPairs b fuel n (skipElementValue b fuel (off + 2)) named
      else skipPairs b fuel n (skipElementValue b fuel off) named
termination_by (fuel, 1)

def skipElementValue (b : List Nat) (fuel : Nat) (elementValueOffset : Nat) : Nat :=
  match fuel with
  | 0 => elementValueOffset
  | fuel + 1 =>
    let t := byteAt b elementValueOffset &&& 0xFF
    if t = 101 then elementValueOffset + 5
    else if t = 64 then skipElementValues b fuel (elementValueOffset + 3) true
    else if t = 91 then skipElementValues b fuel (elementValueOffset + 1) false
    else elementValueOffset + 3
termination_by (fuel, 0)

end

/-- Update the label table of the state with `createLabel`. -/
def createLabelS (s : RState) (bytecodeOffset : Nat) : RState :=
  { s with labels := (createLabel bytecodeOffset s.labels).2 }

/-- Update the label table of the state with `createDebugLabel`. -/
def createDebugLabelS (s : RState) (bytecodeOffset : Nat) : RState :=
  { s with labels := createDebugLabel bytecodeOffset s.labels }

/-- The `LOCAL_VARIABLE`/`RESOURCE_VARIABLE` table sub-loop of
`readTypeAnnotations` (materialises labels only). -/
def taLvLoop (s : RState) (tableLength currentOffset : Nat) : RState × Nat :=
  match tableLength with
  | 0 => (s, currentOffset)
  | n + 1 =>
    let startPc := readUnsignedShort s.c.b currentOffset
    let length := readUnsignedShort s.c.b (currentOffset + 2)
    let currentOffset := currentOffset + 6
    let s := createLabelS s startPc
    let s := createLabelS s (startPc + length)
    taLvLoop s n currentOffset

/-- One iteration body plus loop of `readTypeAnnotations` (part_006 lines
1457-1516).  Returns the recorded per-entry offsets.  Note that the
`targetType` is read with the buggy `readInt` (only the fourth byte), so
`targetType >> 24` is always 0 and in practice only the first switch branch
is ever taken; the whole switch is translated nonetheless. -/
def readTypeAnnotsLoop (s : RState) (visible : Bool) (count fuel currentOffset : Nat)
    (acc : List Nat) : RState × List Nat :=
  match fuel with
  | 0 => (s, acc)
  | fuel + 1 =>
    if s.err.isSome then (s, acc)
    else if acc.length < count then
      let acc := acc ++ [currentOffset]
      let targetType := readInt s.c.b currentOffset
      let hi := targetType >>> 24
      let branch : Option (RState × Nat) :=
        if hi = TR_CLASS_TYPE_PARAMETER ∨ hi = TR_METHOD_TYPE_PARAMETER ∨
            hi = TR_METHOD_FORMAL_PARAMETER then
          some (s, currentOffset + 2)
        else if hi = TR_FIELD ∨ hi = TR_METHOD_RETURN ∨ hi = TR_METHOD_RECEIVER then
          some (s, currentOffset + 1)
        else if hi = TR_LOCAL_VARIABLE ∨ hi = TR_RESOURCE_VARIABLE then
          let tableLength := readUnsignedShort s.c.b (currentOffset + 1)
          some (taLvLoop s tableLength (currentOffset + 3))
        else if hi = TR_CAST ∨ hi = TR_CONSTRUCTOR_INVOCATION_TYPE_ARGUMENT ∨
            hi = TR_METHOD_INVOCATION_TYPE_ARGUMENT ∨
            hi = TR_CONSTRUCTOR_REFERENCE_TYPE_ARGUMENT ∨
            hi = TR_METHOD_REFERENCE_TYPE_ARGUMENT then
          some (s, currentOffset + 4)
        else if hi = TR_CLASS_EXTENDS ∨ hi = TR_CLASS_TYPE_PARAMETER_BOUND ∨
            hi = TR_METHOD_TYPE_PARAMETER_BOUND ∨ hi = TR_THROWS ∨
            hi = TR_EXCEPTION_PARAMETER ∨ hi = TR_INSTANCEOF ∨ hi = TR_NEW ∨
            hi = TR_CONSTRUCTOR_REFERENCE ∨ hi = TR_METHOD_REFERENCE then
          some (s, currentOffset + 3)
        else none
      match branch with
      | none => (setErr s "Assertion Error", acc)
      | some (s, currentOffset) =>
        let pathLength := readByte s.c.b currentOffset
        if hi = TR_EXCEPTION_PARAMETER then
          let path : Option Nat := if pathLength ≠ 0 then some currentOffset else none
          let currentOffset := currentOffset + 1 + 2 * pathLength
          let annotationDescriptor := readUTF8 s.c currentOffset
          let currentOffset := currentOffset + 2
          let s := emit s
            (.visitTryCatchAnnot (targetType &&& 0xFFFFF00) path annotationDescriptor visible)
          let currentOffset := skipElementValues s.c.b (s.c.b.length + 8) currentOffset true
          readTypeAnnotsLoop s visible count fuel currentOffset acc
        else
          let currentOffset := currentOffset + 3 + 2 * pathLength
          let currentOffset := skipElementValues s.c.b (s.c.b.length + 8) currentOffset true
          readTypeAnnotsLoop s visible count fuel currentOffset acc
    else (s, acc)

/-- `readTypeAnnotations(methodVisitor, context, runtimeTypeAnnotationsOffset,
visible)`. -/
def readTypeAnnotations (s : RState) (runtimeTypeAnnotationsOffset : Nat) (visible : Bool) :
    RState × List Nat :=
  let count := readUnsignedShort s.c.b runtimeTypeAnnotationsOffset
  readTypeAnnotsLoop s visible count count (runtimeTypeAnnotationsOffset + 2) []

/-- `getTypeAnnotationBytecodeOffset(typeAnnotationOffsets, typeAnnotationIndex)`. -/
def getTypeAnnotationBytecodeOffset (c : ClassReader)
    (typeAnnotationOffsets : Option (List Nat)) (typeAnnotationIndex : Nat) : Int :=
  match typeAnnotationOffsets with
  | none => -1
  | some offs =>
    if typeAnnotationIndex ≥ offs.length then -1
    else if readByte c.b (offs.getD typeAnnotationIndex 0) < TR_INSTANCEOF then -1
    else (readUnsignedShort c.b (offs.getD typeAnnotationIndex 0 + 1) : Int)

/-- The `LOCAL_VARIABLE`/`RESOURCE_VARIABLE` range table of
`readTypeAnnotationTarget`: materialises labels and collects the three
parallel range arrays. -/
def taTargetLvLoop (s : RState) (tableLength currentOffset : Nat)
    (starts ends indices : List Nat) : RState × Nat × List Nat × List Nat × List Nat :=
  match tableLength with
  | 0 => (s, currentOffset, starts, ends, indices)
  | n + 1 =>
    let startPc := readUnsignedShort s.c.b currentOffset
    let length := readUnsignedShort s.c.b (currentOffset + 2)
    let index := readUnsignedShort s.c.b (currentOffset + 4)
    let currentOffset := currentOffset + 6
    let s := createLabelS s startPc
    let s := createLabelS s (startPc + length)
    taTargetLvLoop s n currentOffset (starts ++ [startPc]) (ends ++ [startPc + length])
      (indices ++ [index])

/-- `readTypeAnnotationTarget(context, typeAnnotationOffset)` (part_006
lines 1525-1580): normalises the target, records the type path (only when a
path is present; otherwise the previous path value is retained, as in the
source), fills the local-variable range arrays, and returns the offset just
past the target and path. -/
def readTypeAnnotationTarget (s : RState) (typeAnnotationOffset : Nat) : RState × Nat :=
  let currentOffset := typeAnnotationOffset
  let targetType := readInt s.c.b typeAnnotationOffset
  let hi := targetType >>> 24
  let branch : Option (RState × Nat × Nat) :=
    if hi = TR_CLASS_TYPE_PARAMETER ∨ hi = TR_METHOD_TYPE_PARAMETER ∨
        hi = TR_METHOD_FORMAL_PARAMETER then
      some (s, targetType &&& 0xFFFF0000, currentOffset + 2)
    else if hi = TR_FIELD ∨ hi = TR_METHOD_RETURN ∨ hi = TR_METHOD_RECEIVER then
      some (s, targetType &&& 0xFF000000, currentOffset + 1)
    else if hi = TR_LOCAL_VARIABLE ∨ hi = TR_RESOURCE_VARIABLE then
      let tableLength := readUnsignedShort s.c.b (currentOffset + 1)
      match taTargetLvLoop s tableLength (currentOffset + 3) [] [] [] with
      | (s, offAfter, starts, ends, indices) =>
        let s2 := { s with currentLvaStarts := starts, currentLvaEnds := ends, currentLvaIndices := indices }
        some (s2, targetType &&& 0xFF000000, offAfter)
    else if hi = TR_CAST ∨ hi = TR_CONSTRUCTOR_INVOCATION_TYPE_ARGUMENT ∨
        hi = TR_METHOD_INVOCATION_TYPE_ARGUMENT ∨ hi = TR_CONSTRUCTOR_REFERENCE_TYPE_ARGUMENT ∨
        hi = TR_METHOD_REFERENCE_TYPE_ARGUMENT then
      some (s, targetType &&& 0xFF0000FF, currentOffset + 4)
    else if hi = TR_CLASS_EXTENDS ∨ hi = TR_CLASS_TYPE_PARAMETER_BOUND ∨
        hi = TR_METHOD_TYPE_PARAMETER_BOUND ∨ hi = TR_THROWS ∨ hi = TR_EXCEPTION_PARAMETER then
      some (s, targetType &&& 0xFFFFFF00, currentOffset + 3)
    else if hi = TR_INSTANCEOF ∨ hi = TR_NEW ∨ hi = TR_CONSTRUCTOR_REFERENCE ∨
        hi = TR_METHOD_REFERENCE then
      some (s, targetType &&& 0xFF000000, currentOffset + 3)
    else none
  match branch with
  | none => (setErr s "Assertion Error", currentOffset)
  | some (s, targetType, currentOffset) =>
    let s := { s with currentTypeAnnotTarget := targetType }
    let pathLength := readByte s.c.b currentOffset
    let s :=
      if pathLength ≠ 0 then { s with currentTypeAnnotTargetPath := some currentOffset } else s
    (s, currentOffset + 1 + 2 * pathLength)

/-- Write one slot of the selected frame scratch array (the source passes
the locals or the stack array as the `frame []interface{}` argument of
`readVerificationTypeInfo`; here a selector picks the state field). -/
def setFrameSlot (s : RState) (intoStack : Bool) (index : Nat) (v : FrameItem) : RState :=
  if intoStack then { s with currentFrameStackTypes := s.currentFrameStackTypes.set index v }
  else { s with currentFrameLocalTypes := s.currentFrameLocalTypes.set index v }

/-- `readVerificationTypeInfo(verificationTypeInfoOffset, frame, index,
charBuffer, labels)`. -/
def readVerificationTypeInfo (s : RState) (verificationTypeInfoOffset : Nat) (intoStack : Bool)
    (index : Nat) : RState × Nat :=
  let currentOffset := verificationTypeInfoOffset
  let tag := byteAt s.c.b currentOffset &&& 0xFF
  let currentOffset := currentOffset + 1
  if tag = ITEM_TOP then (setFrameSlot s intoStack index .top, currentOffset)
  else if tag = ITEM_INTEGER then (setFrameSlot s intoStack index .integer, currentOffset)
  else if tag = ITEM_FLOAT then (setFrameSlot s intoStack index .float, currentOffset)
  else if tag = ITEM_DOUBLE then (setFrameSlot s intoStack index .double, currentOffset)
  else if tag = ITEM_LONG then (setFrameSlot s intoStack index .long, currentOffset)
  else if tag = ITEM_NULL then (setFrameSlot s intoStack index .null, currentOffset)
  else if tag = ITEM_UNINITIALIZED_THIS then
    (setFrameSlot s intoStack index .uninitializedThis, currentOffset)
  else if tag = ITEM_OBJECT then
    (setFrameSlot s intoStack index (.object (readClass s.c currentOffset)), currentOffset + 2)
  else
    let lbl := readUnsignedShort s.c.b currentOffset
    let s := createLabelS s lbl
    (setFrameSlot s intoStack index (.uninitialized lbl), currentOffset + 2)

/-- The APPEND-frame loop of `readStackMapFrame`. -/
def rsfAppendLoop (s : RState) (k currentOffset localIndex : Nat) : RState × Nat :=
  match k with
  | 0 => (s, currentOffset)
  | k + 1 =>
    match readVerificationTypeInfo s currentOffset false localIndex with
    | (s, currentOffset) => rsfAppendLoop s k currentOffset (localIndex + 1)

/-- The FULL-frame locals/stack loops of `readStackMapFrame`. -/
def rsfFullLoop (s : RState) (n currentOffset idx : Nat) (intoStack : Bool) : RState × Nat :=
  match n with
  | 0 => (s, currentOffset)
  | n + 1 =>
    match readVerificationTypeInfo s currentOffset intoStack idx with
    | (s, currentOffset) => rsfFullLoop s n currentOffset (idx + 1) intoStack

/-- `readStackMapFrame(stackMapFrameOffset, compressed, expand, context)`
(part_006 lines 1838-1909).  Note the source resets
`context.currentFrameLocalCount` to 0 on entry. -/
def readStackMapFrame (s : RState) (stackMapFrameOffset : Nat) (compressed expand : Bool) :
    RState × Nat :=
  let currentOffset := stackMapFrameOffset
  let (s, frameType, currentOffset) :=
    if compressed then (s, byteAt s.c.b currentOffset &&& 0xFF, currentOffset + 1)
    else ({ s with currentFrameOffset := -1 }, FULL_FRAME, currentOffset)
  let s := { s with currentFrameLocalCount := 0 }
  let (s, offsetDelta, currentOffset) :=
    if frameType < SAME_LOCALS_1_STACK_ITEM_FRAME then
      ({ s with currentFrameType := F_SAME, currentFrameStackCount := 0 }, frameType,
        currentOffset)
    else if frameType < RESERVED then
      let offsetDelta := frameType - SAME_LOCALS_1_STACK_ITEM_FRAME
      match readVerificationTypeInfo s currentOffset true 0 with
      | (s, currentOffset) =>
        ({ s with currentFrameType := F_SAME1, currentFrameStackCount := 1 }, offsetDelta,
          currentOffset)
    else
      let offsetDelta := readUnsignedShort s.c.b currentOffset
      let currentOffset := currentOffset + 2
      if frameType = SAME_LOCALS_1_STACK_ITEM_FRAME_EXTENDED then
        match readVerificationTypeInfo s currentOffset true 0 with
        | (s, currentOffset) =>
          ({ s with currentFrameType := F_SAME1, currentFrameStackCount := 1 }, offsetDelta,
            currentOffset)
      else if CHOP_FRAME ≤ frameType ∧ frameType < SAME_FRAME_EXTENDED then
        let delta : Int := (SAME_FRAME_EXTENDED : Int) - (frameType : Int)
        ({ s with currentFrameType := F_CHOP, currentFrameLocalCountDelta := delta, currentFrameLocalCount := s.currentFrameLocalCount - delta, currentFrameStackCount := 0 },
          offsetDelta, currentOffset)
      else if frameType = SAME_FRAME_EXTENDED then
        ({ s with currentFrameType := F_SAME, currentFrameStackCount := 0 }, offsetDelta,
          currentOffset)
      else if frameType < FULL_FRAME then
        let localIndex := (if expand then s.currentFrameLocalCount else 0).toNat
        match rsfAppendLoop s (frameType - SAME_FRAME_EXTENDED) currentOffset localIndex with
        | (s, currentOffset) =>
          let delta : Int := (frameType : Int) - (SAME_FRAME_EXTENDED : Int)
          ({ s with currentFrameType := F_APPEND, currentFrameLocalCountDelta := delta, currentFrameLocalCount := s.currentFrameLocalCount + delta, currentFrameStackCount := 0 },
            offsetDelta, currentOffset)
      else
        let numberOfLocals := readUnsignedShort s.c.b currentOffset
        let currentOffset := currentOffset + 2
        let s := { s with currentFrameType := F_FULL, currentFrameLocalCountDelta := (numberOfLocals : Int), currentFrameLocalCount := (numberOfLocals : Int) }
        match rsfFullLoop s numberOfLocals currentOffset 0 false with
        | (s, currentOffset) =>
          let numberOfStackItems := readUnsignedShort s.c.b currentOffset
          let currentOffset := currentOffset + 2
          let s := { s with currentFrameStackCount := (numberOfStackItems : Int) }
          match rsfFullLoop s numberOfStackItems currentOffset 0 true with
          | (s, currentOffset) => (s, offsetDelta, currentOffset)
  let s := { s with currentFrameOffset := s.currentFrameOffset + (offsetDelta : Int) + 1 }
  let s := createLabelS s s.currentFrameOffset.toNat
  (s, currentOffset)

/-- Skip a run of `[` characters in a method descriptor. -/
def arrayDescrEnd (descr : List Nat) (fuel i : Nat) : Nat :=
  match fuel with
  | 0 => i
  | fuel + 1 => if descr.getD i 0 = 91 then arrayDescrEnd descr fuel (i + 1) else i

/-- Scan a method descriptor up to the next `;`. -/
def semicolonEnd (descr : List Nat) (fuel i : Nat) : Nat :=
  match fuel with
  | 0 => i
  | fuel + 1 => if descr.getD i 0 ≠ 59 then semicolonEnd descr fuel (i + 1) else i

/-- The argument-descriptor loop of `computeImplicitFame` (note the
source's method name misspelling is kept). -/
def cifLoop (s : RState) (methodDescriptor : List Nat) (fuel currentMethodDescriptorOffset nLocal : Nat) : RState :=
  match fuel with
  | 0 => s
  | fuel + 1 =>
    let currentArgumentDescriptorStartOffset := currentMethodDescriptorOffset
    let currentMethodDescriptorOffset := currentMethodDescriptorOffset + 1
    let ch := methodDescriptor.getD (currentMethodDescriptorOffset - 1) 0
    if ch = 90 ∨ ch = 67 ∨ ch = 66 ∨ ch = 83 ∨ ch = 73 then
      cifLoop (setFrameSlot s false nLocal .integer) methodDescriptor fuel
        currentMethodDescriptorOffset (nLocal + 1)
    else if ch = 70 then
      cifLoop (setFrameSlot s false nLocal .float) methodDescriptor fuel
        currentMethodDescriptorOffset (nLocal + 1)
    else if ch = 74 then
      cifLoop (setFrameSlot s false nLocal .long) methodDescriptor fuel
        currentMethodDescriptorOffset (nLocal + 1)
    else if ch = 68 then
      cifLoop (setFrameSlot s false nLocal .double) methodDescriptor fuel
        currentMethodDescriptorOffset (nLocal + 1)
    else if ch = 91 then
      let j := arrayDescrEnd methodDescriptor (methodDescriptor.length + 1)
        currentMethodDescriptorOffset
      let j :=
        if methodDescriptor.getD j 0 = 76 then
          semicolonEnd methodDescriptor (methodDescriptor.length + 1) (j + 1)
        else j
      let j := j + 1
      let seg := (methodDescriptor.drop currentArgumentDescriptorStartOffset).take
        (j - currentArgumentDescriptorStartOffset)
      cifLoop (setFrameSlot s false nLocal (.object seg)) methodDescriptor fuel j (nLocal + 1)
    else if ch = 76 then
      let j := semicolonEnd methodDescriptor (methodDescriptor.length + 1)
        currentMethodDescriptorOffset
      let seg := (methodDescriptor.drop (currentArgumentDescriptorStartOffset + 1)).take
        (j - (currentArgumentDescriptorStartOffset + 1))
      cifLoop (setFrameSlot s false nLocal (.object seg)) methodDescriptor fuel (j + 1)
        (nLocal + 1)
    else
      { s with currentFrameLocalCount := (nLocal : Int) }

/-- `computeImplicitFame(context)`. -/
def computeImplicitFame (s : RState) : RState :=
  let r :=
    if s.currentMethodAccessFlags &&& ACC_STATIC = 0 then
      if s.currentMethodName = rstr "<init>" then (setFrameSlot s false 0 .uninitializedThis, 1)
      else (setFrameSlot s false 0 (.object (readClass s.c (s.c.header + 2))), 1)
    else (s, 0)
  cifLoop r.1 r.1.currentMethodDescriptor (r.1.currentMethodDescriptor.length + 2) 1 r.2

/-! Pass 1 of `readCode` (part_006 lines 850-939): discover labels and
instruction widths.  The opcode case lists below transcribe the `switch`
cases in source order. -/

/-- The single-byte instruction case list of pass 1. -/
def pass1SingleByte : List Nat :=
  [NOP, ACONST_NULL, ICONST_M1, ICONST_0, ICONST_1, ICONST_2,
   ICONST_3, ICONST_4, ICONST_5, LCONST_0, LCONST_1, FCONST_0, FCONST_1,
   FCONST_2, DCONST_0, DCONST_1, IALOAD, LALOAD, FALOAD, DALOAD,
   AALOAD, BALOAD, CALOAD, SALOAD, IASTORE, LASTORE, FASTORE, DASTORE,
   AASTORE, BASTORE, CASTORE, SASTORE, POP, POP2, DUP, DUP_X1, DUP_X2,
   DUP2, DUP2_X1, DUP2_X2, SWAP, IADD, LADD, FADD, DADD, ISUB,
   LSUB, FSUB, DSUB, IMUL, LMUL, FMUL, DMUL, IDIV, LDIV, FDIV,
   DDIV, IREM, LREM, FREM, DREM, INEG, LNEG, FNEG, DNEG, ISHL,
   LSHL, ISHR, LSHR, IUSHR, LUSHR, IAND, LAND, IOR, LOR, IXOR,
   LXOR, I2L, I2F, I2D, L2I, L2F, L2D, F2I, F2L, F2D,
   D2I, D2L, D2F, I2B, I2C, I2S, LCMP, FCMPL, FCMPG, DCMPL,
   DCMPG, IRETURN, LRETURN, FRETURN, DRETURN, ARETURN, RETURN, ARRAYLENGTH,
   ATHROW, MONITORENTER, MONITOREXIT, ILOAD_0, ILOAD_1, ILOAD_2, ILOAD_3, LLOAD_0,
   LLOAD_1, LLOAD_2, LLOAD_3, FLOAD_0, FLOAD_1, FLOAD_2, FLOAD_3, DLOAD_0,
   DLOAD_1, DLOAD_2, DLOAD_3, ALOAD_0, ALOAD_1, ALOAD_2, ALOAD_3, ISTORE_0,
   ISTORE_1, ISTORE_2, ISTORE_3, LSTORE_0, LSTORE_1, LSTORE_2, LSTORE_3, FSTORE_0,
   FSTORE_1, FSTORE_2, FSTORE_3, DSTORE_0, DSTORE_1, DSTORE_2, DSTORE_3, ASTORE_0,
   ASTORE_1, ASTORE_2, ASTORE_3]

/-- The standard jump case list. -/
def jumpOpcodes : List Nat :=
  [IFEQ, IFNE, IFLT, IFGE, IFGT, IFLE, IF_ICMPEQ, IF_ICMPNE, IF_ICMPLT,
   IF_ICMPGE, IF_ICMPGT, IF_ICMPLE, IF_ACMPEQ, IF_ACMPNE, GOTO, JSR, IFNULL,
   IFNONNULL]

/-- The ASM-specific jump case list. -/
def asmJumpOpcodes : List Nat :=
  [ASM_IFEQ, ASM_IFNE, ASM_IFLT, ASM_IFGE, ASM_IFGT, ASM_IFLE, ASM_IF_ICMPEQ,
   ASM_IF_ICMPNE, ASM_IF_ICMPLT, ASM_IF_ICMPGE, ASM_IF_ICMPGT, ASM_IF_ICMPLE,
   ASM_IF_ACMPEQ, ASM_IF_ACMPNE, ASM_GOTO, ASM_JSR, ASM_IFNULL, ASM_IFNONNULL]

/-- The two-byte case list of pass 1. -/
def pass1TwoByte : List Nat :=
  [ILOAD, LLOAD, FLOAD, DLOAD, ALOAD, ISTORE,
   LSTORE, FSTORE, DSTORE, ASTORE, RET, BIPUSH, NEWARRAY, LDC]

/-- The three-byte case list of pass 1. -/
def pass1ThreeByte : List Nat :=
  [SIPUSH, LDC_W, LDC2_W, GETSTATIC, PUTSTATIC, GETFIELD, PUTFIELD,
   INVOKEVIRTUAL, INVOKESPECIAL, INVOKESTATIC, NEW, ANEWARRAY, CHECKCAST, INSTANCEOF,
   IINC]

/-- The TABLESWITCH target loop of pass 1. -/
def p1TableLoop (s : RState) (numTableEntries bytecodeOffset currentOffset : Nat) :
    RState × Nat :=
  match numTableEntries with
  | 0 => (s, currentOffset)
  | n + 1 =>
    let s := createLabelS s (bytecodeOffset + readInt s.c.b currentOffset)
    p1TableLoop s n bytecodeOffset (currentOffset + 4)

/-- The LOOKUPSWITCH target loop of pass 1. -/
def p1LookupLoop (s : RState) (numSwitchCases bytecodeOffset currentOffset : Nat) :
    RState × Nat :=
  match numSwitchCases with
  | 0 => (s, currentOffset)
  | n + 1 =>
    let s := createLabelS s (bytecodeOffset + readInt s.c.b (currentOffset + 4))
    p1LookupLoop s n bytecodeOffset (currentOffset + 8)

/-- Pass 1: walks `[bytecodeStartOffset, bytecodeEndOffset)` materialising
labels at branch and switch targets.  `fuel` bounds the iterations (every
case advances the offset by at least one byte, so `codeLength + 1`
suffices); returns the final offset, where the exception table starts. -/
def pass1 (s : RState) (fuel currentOffset bytecodeStartOffset bytecodeEndOffset : Nat) :
    RState × Nat :=
  match fuel with
  | 0 => (s, currentOffset)
  | fuel + 1 =>
    if s.err.isSome then (s, currentOffset)
    else if currentOffset < bytecodeEndOffset then
      let bytecodeOffset := currentOffset - bytecodeStartOffset
      let opcode := byteAt s.c.b currentOffset &&& 0xFF
      if opcode ∈ pass1SingleByte then
        pass1 s fuel (currentOffset + 1) bytecodeStartOffset bytecodeEndOffset
      else if opcode ∈ jumpOpcodes then
        let s := createLabelS s
          ((bytecodeOffset : Int) + readShort s.c.b (currentOffset + 1)).toNat
        pass1 s fuel (currentOffset + 3) bytecodeStartOffset bytecodeEndOffset
      else if opcode ∈ asmJumpOpcodes then
        let s := createLabelS s (bytecodeOffset + readUnsignedShort s.c.b (currentOffset + 1))
        pass1 s fuel (currentOffset + 3) bytecodeStartOffset bytecodeEndOffset
      else if opcode = GOTO_W ∨ opcode = JSR_W ∨ opcode = ASM_GOTO_W then
        let s := createLabelS s (bytecodeOffset + readInt s.c.b (currentOffset + 1))
        pass1 s fuel (currentOffset + 5) bytecodeStartOffset bytecodeEndOffset
      else if opcode = WIDE then
        if byteAt s.c.b (currentOffset + 1) &&& 0xFF = IINC then
          pass1 s fuel (currentOffset + 6) bytecodeStartOffset bytecodeEndOffset
        else
          pass1 s fuel (currentOffset + 4) bytecodeStartOffset bytecodeEndOffset
      else if opcode = TABLESWITCH then
        let currentOffset := currentOffset + (4 - (bytecodeOffset &&& 3))
        let s := createLabelS s (bytecodeOffset + readInt s.c.b currentOffset)
        let numTableEntries : Int :=
          (readInt s.c.b (currentOffset + 8) : Int) - (readInt s.c.b (currentOffset + 4) : Int) + 1
        let currentOffset := currentOffset + 12
        match p1TableLoop s numTableEntries.toNat bytecodeOffset currentOffset with
        | (s, currentOffset) => pass1 s fuel currentOffset bytecodeStartOffset bytecodeEndOffset
      else if opcode = LOOKUPSWITCH then
        let currentOffset := currentOffset + (4 - (bytecodeOffset &&& 3))
        let s := createLabelS s (bytecodeOffset + readInt s.c.b currentOffset)
        let numSwitchCases := readInt s.c.b (currentOffset + 4)
        let currentOffset := currentOffset + 8
        match p1LookupLoop s numSwitchCases bytecodeOffset currentOffset with
        | (s, currentOffset) => pass1 s fuel currentOffset bytecodeStartOffset bytecodeEndOffset
      else if opcode ∈ pass1TwoByte then
        pass1 s fuel (currentOffset + 2) bytecodeStartOffset bytecodeEndOffset
      else if opcode ∈ pass1ThreeByte then
        pass1 s fuel (currentOffset + 3) bytecodeStartOffset bytecodeEndOffset
      else if opcode = INVOKEINTERFACE ∨ opcode = INVOKEDYNAMIC then
        pass1 s fuel (currentOffset + 5) bytecodeStartOffset bytecodeEndOffset
      else if opcode = MULTIANEWARRAY then
        pass1 s fuel (currentOffset + 4) bytecodeStartOffset bytecodeEndOffset
      else
        (setErr s "AssertionError", currentOffset)
    else (s, currentOffset)

/-- The exception-table loop of `readCode` (part_006 lines 941-953): three
labels per entry, then `VisitTryCatchBlock` is emitted immediately. -/
def exceptionTableLoop (s : RState) (n currentOffset : Nat) : RState × Nat :=
  match n with
  | 0 => (s, currentOffset)
  | n + 1 =>
    let startPc := readUnsignedShort s.c.b currentOffset
    let s := createLabelS s startPc
    let endPc := readUnsignedShort s.c.b (currentOffset + 2)
    let s := createLabelS s endPc
    let handlerPc := readUnsignedShort s.c.b (currentOffset + 4)
    let s := createLabelS s handlerPc
    let catchType := readUTF8 s.c
      (s.c.cpInfoOffsets.getD (readUnsignedShort s.c.b (currentOffset + 6)) 0)
    let currentOffset := currentOffset + 8
    let s := emit s (.visitTryCatchBlock startPc endPc handlerPc catchType)
    exceptionTableLoop s n currentOffset

/-- The exception-table block: length prefix, then the loop. -/
def exceptionTable (s : RState) (currentOffset : Nat) : RState × Nat :=
  let exceptionTableLength := readUnsignedShort s.c.b currentOffset
  exceptionTableLoop s exceptionTableLength (currentOffset + 2)

/-- The offsets and tables collected by the Code attribute scan. -/
structure CodeAttrs where
  localVariableTableOffset : Nat := 0
  localVariableTypeTableOffset : Nat := 0
  stackMapFrameOffset : Nat := 0
  stackMapTableEndOffset : Nat := 0
  compressedFrames : Bool := true
  visibleTypeAnnotationOffsets : Option (List Nat) := none
  invisibleTypeAnnotationOffsets : Option (List Nat) := none
  attributes : List AttributeS := []
deriving Repr

/-- Apply `f` to the label stored at `off` (used for
`labels[startPc].addLineNumber(...)`; the slot always exists because
`createDebugLabel` just ran, except on out-of-range input, where Go would
panic and this model leaves the state unchanged). -/
def modifyLabel (s : RState) (off : Nat) (f : LabelS → LabelS) : RState :=
  match (s.labels : List (Option LabelS)).getD off none with
  | none => s
  | some l => { s with labels := s.labels.set off (some (f l)) }

/-- The LocalVariableTable pre-scan loop: debug labels at each range start
and end. -/
def lvtScanLoop (s : RState) (n currentOffset : Nat) : RState × Nat :=
  match n with
  | 0 => (s, currentOffset)
  | n + 1 =>
    let startPc := readUnsignedShort s.c.b currentOffset
    let s := createDebugLabelS s startPc
    let length := readUnsignedShort s.c.b (currentOffset + 2)
    let s := createDebugLabelS s (startPc + length)
    lvtScanLoop s n (currentOffset + 10)

/-- The LineNumberTable scan loop: a debug label per entry plus
`addLineNumber` on the label at `startPc`. -/
def lntScanLoop (s : RState) (n currentOffset : Nat) : RState × Nat :=
  match n with
  | 0 => (s, currentOffset)
  | n + 1 =>
    let startPc := readUnsignedShort s.c.b currentOffset
    let lineNumber := readUnsignedShort s.c.b (currentOffset + 2)
    let currentOffset := currentOffset + 4
    let s := createDebugLabelS s startPc
    let s := modifyLabel s startPc (fun l => addLineNumber l lineNumber)
    lntScanLoop s n currentOffset

/-- The Code-attribute scan loop (part_006 lines 964-1033).  The attribute
prototype list is empty (as `Accept` passes), so every unhandled attribute
takes the opaque fallback of `readAttribute`.  The `continue` statements of
the LocalVariableTable/LineNumberTable branches skip the
`currentOffset += attributeLength` adjustment, exactly as in the source. -/
def attrScan (s : RState) (n currentOffset : Nat) (acc : CodeAttrs) :
    RState × Nat × CodeAttrs :=
  match n with
  | 0 => (s, currentOffset, acc)
  | n + 1 =>
    if s.err.isSome then (s, currentOffset, acc)
    else
      let attributeName := readUTF8 s.c currentOffset
      let attributeLength := readInt s.c.b (currentOffset + 2)
      let currentOffset := currentOffset + 6
      if attributeName = rstr "LocalVariableTable" then
        if s.parsingOptions &&& SKIP_DEBUG = 0 then
          let acc := { acc with localVariableTableOffset := currentOffset }
          let localVariableTableLength := readUnsignedShort s.c.b currentOffset
          match lvtScanLoop s localVariableTableLength (currentOffset + 2) with
          | (s, currentOffset) => attrScan s n currentOffset acc
        else attrScan s n (currentOffset + attributeLength) acc
      else if attributeName = rstr "LocalVariableTypeTable" then
        attrScan s n (currentOffset + attributeLength)
          { acc with localVariableTypeTableOffset := currentOffset }
      else if attributeName = rstr "LineNumberTable" then
        if s.parsingOptions &&& SKIP_DEBUG = 0 then
          let lineNumberTableLength := readUnsignedShort s.c.b currentOffset
          match lntScanLoop s lineNumberTableLength (currentOffset + 2) with
          | (s, currentOffset) => attrScan s n currentOffset acc
        else attrScan s n (currentOffset + attributeLength) acc
      else if attributeName = rstr "RuntimeVisibleTypeAnnotations" then
        match readTypeAnnotations s currentOffset true with
        | (s, offs) =>
          attrScan s n (currentOffset + attributeLength)
            { acc with visibleTypeAnnotationOffsets := some offs }
      else if attributeName = rstr "RuntimeInvisibleTypeAnnotations" then
        match readTypeAnnotations s currentOffset false with
        | (s, offs) =>
          attrScan s n (currentOffset + attributeLength)
            { acc with invisibleTypeAnnotationOffsets := some offs }
      else if attributeName = rstr "StackMapTable" then
        let acc :=
          if s.parsingOptions &&& SKIP_FRAMES = 0 then
            { acc with stackMapFrameOffset := currentOffset + 2, stackMapTableEndOffset := currentOffset + attributeLength }
          else acc
        attrScan s n (currentOffset + attributeLength) acc
      else if attributeName = rstr "StackMap" then
        let acc :=
          if s.parsingOptions &&& SKIP_FRAMES = 0 then
            { acc with stackMapFrameOffset := currentOffset + 2, stackMapTableEndOffset := currentOffset + attributeLength, compressedFrames := false }
          else acc
        attrScan s n (currentOffset + attributeLength) acc
      else
        attrScan s n (currentOffset + attributeLength)
          { acc with attributes := { typed := attributeName, contentLength := attributeLength } :: acc.attributes }

/-- The ITEM_UNINITIALIZED pre-scan of the StackMapTable payload (part_006
lines 1047-1056). -/
def smPreScan (s : RState) (fuel offset endOffset bytecodeStartOffset codeLength : Nat) :
    RState :=
  match fuel with
  | 0 => s
  | fuel + 1 =>
    if offset < endOffset then
      let s :=
        if byteAt s.c.b offset = ITEM_UNINITIALIZED then
          let potentialBytecodeOffset := readUnsignedShort s.c.b (offset + 1)
          if potentialBytecodeOffset < codeLength ∧
              byteAt s.c.b (bytecodeStartOffset + potentialBytecodeOffset) &&& 0xFF = NEW then
            createLabelS s potentialBytecodeOffset
          else s
        else s
      smPreScan s fuel (offset + 1) endOffset bytecodeStartOffset codeLength
    else s

/-! Pass 2 of `readCode` (part_006 lines 1074-1338): sequential decode. -/

/-- The `VisitInsn` case list of pass 2 (lines 1106-1130). -/
def pass2InsnOpcodes : List Nat :=
  [NOP, ACONST_NULL, ICONST_M1,
   ICONST_0, ICONST_1, ICONST_2, ICONST_3, ICONST_4, ICONST_5,
   LCONST_0, LCONST_1,
   FCONST_0, FCONST_1, FCONST_2,
   DCONST_0, DCONST_1,
   IALOAD, LALOAD, FALOAD, DALOAD, AALOAD, BALOAD, CALOAD, SALOAD,
   IASTORE, LASTORE, FASTORE, DASTORE, AASTORE, BASTORE, CASTORE, SASTORE,
   POP, POP2,
   DUP, DUP_X1, DUP_X2, DUP2, DUP2_X1, DUP2_X2,
   SWAP, IADD, LADD, FADD, DADD,
   ISUB, LSUB, FSUB, DSUB,
   IMUL, LMUL, FMUL, DMUL,
   IDIV, LDIV, FDIV, DDIV,
   IREM, LREM, FREM, DREM,
   INEG, LNEG, FNEG, DNEG,
   ISHL, LSHL, ISHR, LSHR, IUSHR, LUSHR,
   IAND, LAND, IOR, LOR, IXOR, LXOR,
   I2L, I2F, I2D, L2I, L2F, L2D,
   F2I, F2L, F2D,
   D2I, D2L, D2F,
   I2B, I2C, I2S,
   LCMP, FCMPL, FCMPG, DCMPL, DCMPG,
   IRETURN, LRETURN, FRETURN, DRETURN, ARETURN, RETURN,
   ARRAYLENGTH, ATHROW,
   MONITORENTER, MONITOREXIT]

/-- The short load-form case list (ILOAD_0..ALOAD_3). -/
def loadShortOpcodes : List Nat :=
  [ILOAD_0, ILOAD_1, ILOAD_2, ILOAD_3,
   LLOAD_0, LLOAD_1, LLOAD_2, LLOAD_3,
   FLOAD_0, FLOAD_1, FLOAD_2, FLOAD_3,
   DLOAD_0, DLOAD_1, DLOAD_2, DLOAD_3,
   ALOAD_0, ALOAD_1, ALOAD_2, ALOAD_3]

/-- The short store-form case list (ISTORE_0..ASTORE_3). -/
def storeShortOpcodes : List Nat :=
  [ISTORE_0, ISTORE_1, ISTORE_2, ISTORE_3,
   LSTORE_0, LSTORE_1, LSTORE_2, LSTORE_3,
   FSTORE_0, FSTORE_1, FSTORE_2, FSTORE_3,
   DSTORE_0, DSTORE_1, DSTORE_2, DSTORE_3,
   ASTORE_0, ASTORE_1, ASTORE_2, ASTORE_3]

/-- The `VisitVarInsn` case list of pass 2. -/
def varInsnOpcodes : List Nat :=
  [ILOAD, LLOAD, FLOAD, DLOAD, ALOAD,
   ISTORE, LSTORE, FSTORE, DSTORE, ASTORE,
   RET]

/-- The field/method reference case list of pass 2. -/
def fieldMethodOpcodes : List Nat :=
  [GETSTATIC, PUTSTATIC, GETFIELD, PUTFIELD,
   INVOKEVIRTUAL, INVOKESPECIAL, INVOKESTATIC, INVOKEINTERFACE]

/-- Collect the TABLESWITCH target labels of pass 2. -/
def p2TableTargets (b : List Nat) (n currentBytecodeOffset currentOffset : Nat)
    (acc : List Nat) : List Nat × Nat :=
  match n with
  | 0 => (acc, currentOffset)
  | n + 1 =>
    p2TableTargets b n currentBytecodeOffset (currentOffset + 4)
      (acc ++ [currentBytecodeOffset + readInt b currentOffset])

/-- Collect the LOOKUPSWITCH key/target pairs of pass 2. -/
def p2LookupPairs (b : List Nat) (n currentBytecodeOffset currentOffset : Nat)
    (keys vals : List Nat) : List Nat × List Nat × Nat :=
  match n with
  | 0 => (keys, vals, currentOffset)
  | n + 1 =>
    p2LookupPairs b n currentBytecodeOffset (currentOffset + 8)
      (keys ++ [readInt b currentOffset])
      (vals ++ [currentBytecodeOffset + readInt b (currentOffset + 4)])

/-- Collect the static bootstrap-method arguments of an INVOKEDYNAMIC
(errors from `readConst` are discarded by the source, leaving nil). -/
def bsmArgs (c : ClassReader) (n off : Nat) (acc : List ConstVal) : List ConstVal :=
  match n with
  | 0 => acc
  | n + 1 =>
    let v := match readConst c (readUnsignedShort c.b off) with
      | .ok v => v
      | .error _ => .knil
    bsmArgs c n (off + 2) (acc ++ [v])

/-- Decode and emit one instruction (the big switch of pass 2, lines
1104-1315).  Returns the new offset and the `insertFrame` flag, which only
the ASM-specific branches set. -/
def decodeInsn (s : RState) (currentOffset currentBytecodeOffset : Nat) (insertFrame : Bool)
    (wideJumpOpcodeDelta : Nat) : RState × Nat × Bool :=
  let opcode := byteAt s.c.b currentOffset &&& 0xFF
  if opcode ∈ pass2InsnOpcodes then
    (emit s (.visitInsn opcode), currentOffset + 1, insertFrame)
  else if opcode ∈ loadShortOpcodes then
    let op := opcode - ILOAD_0
    (emit s (.visitVarInsn (ILOAD + (op >>> 2)) (op &&& 0x3)), currentOffset + 1, insertFrame)
  else if opcode ∈ storeShortOpcodes then
    let op := opcode - ISTORE_0
    (emit s (.visitVarInsn (ISTORE + (op >>> 2)) (op &&& 0x3)), currentOffset + 1, insertFrame)
  else if opcode ∈ jumpOpcodes then
    (emit s (.visitJumpInsn opcode
        ((currentBytecodeOffset : Int) + readShort s.c.b (currentOffset + 1)).toNat),
      currentOffset + 3, insertFrame)
  else if opcode = GOTO_W ∨ opcode = JSR_W then
    (emit s (.visitJumpInsn (opcode - wideJumpOpcodeDelta)
        (currentBytecodeOffset + readInt s.c.b (currentOffset + 1))),
      currentOffset + 5, insertFrame)
  else if opcode ∈ asmJumpOpcodes then
    let op :=
      if opcode < ASM_IFNULL then opcode - ASM_OPCODE_DELTA
      else opcode - ASM_IFNULL_OPCODE_DELTA
    let target := currentBytecodeOffset + readUnsignedShort s.c.b (currentOffset + 1)
    if op = GOTO ∨ op = JSR then
      (emit s (.visitJumpInsn (op + WIDE_JUMP_OPCODE_DELTA) target), currentOffset + 3,
        insertFrame)
    else
      let op := if op < GOTO then ((op + 1) ^^^ 1) - 1 else op ^^^ 1
      let s := createLabelS s (currentBytecodeOffset + 3)
      let s := emit s (.visitJumpInsn op (currentBytecodeOffset + 3))
      let s := emit s (.visitJumpInsn GOTO_W target)
      (s, currentOffset + 3, true)
  else if opcode = ASM_GOTO_W then
    (emit s (.visitJumpInsn GOTO_W (currentBytecodeOffset + readInt s.c.b (currentOffset + 1))),
      currentOffset + 5, true)
  else if opcode = WIDE then
    let opcode2 := byteAt s.c.b (currentOffset + 1) &&& 0xFF
    if opcode2 = IINC then
      (emit s (.visitIincInsn (readUnsignedShort s.c.b (currentOffset + 2))
          (readShort s.c.b (currentOffset + 4))), currentOffset + 6, insertFrame)
    else
      (emit s (.visitVarInsn opcode2 (readUnsignedShort s.c.b (currentOffset + 2))),
        currentOffset + 4, insertFrame)
  else if opcode = TABLESWITCH then
    let currentOffset := currentOffset + (4 - (currentBytecodeOffset &&& 3))
    let defaultLabel := currentBytecodeOffset + readInt s.c.b currentOffset
    let low := readInt s.c.b (currentOffset + 4)
    let high := readInt s.c.b (currentOffset + 8)
    let currentOffset := currentOffset + 12
    let tableLength : Int := (high : Int) - (low : Int) + 1
    if tableLength < 0 then (setErr s "makeslice: len out of range", currentOffset, insertFrame)
    else
      match p2TableTargets s.c.b tableLength.toNat currentBytecodeOffset currentOffset [] with
      | (table, currentOffset) =>
        (emit s (.visitTableSwitchInsn low high defaultLabel table), currentOffset, insertFrame)
  else if opcode = LOOKUPSWITCH then
    let currentOffset := currentOffset + (4 - (currentBytecodeOffset &&& 3))
    let defaultLabel := currentBytecodeOffset + readInt s.c.b currentOffset
    let nPairs := readInt s.c.b (currentOffset + 4)
    let currentOffset := currentOffset + 8
    match p2LookupPairs s.c.b nPairs currentBytecodeOffset currentOffset [] [] with
    | (keys, vals, currentOffset) =>
      (emit s (.visitLookupSwitchInsn defaultLabel keys vals), currentOffset, insertFrame)
  else if opcode ∈ varInsnOpcodes then
    (emit s (.visitVarInsn opcode (byteAt s.c.b (currentOffset + 1) &&& 0xFF)),
      currentOffset + 2, insertFrame)
  else if opcode = BIPUSH ∨ opcode = NEWARRAY then
    (emit s (.visitIntInsn opcode (byteAt s.c.b (currentOffset + 1) : Int)),
      currentOffset + 2, insertFrame)
  else if opcode = SIPUSH then
    (emit s (.visitIntInsn opcode (readShort s.c.b (currentOffset + 1))),
      currentOffset + 3, insertFrame)
  else if opcode = LDC then
    let constd := match readConst s.c (byteAt s.c.b (currentOffset + 1) &&& 0xFF) with
      | .ok v => v
      | .error _ => .knil
    (emit s (.visitLdcInsn constd), currentOffset + 2, insertFrame)
  else if opcode = LDC_W ∨ opcode = LDC2_W then
    let constd := match readConst s.c (readUnsignedShort s.c.b (currentOffset + 1)) with
      | .ok v => v
      | .error _ => .knil
    (emit s (.visitLdcInsn constd), currentOffset + 3, insertFrame)
  else if opcode ∈ fieldMethodOpcodes then
    let cpInfoOffset := s.c.cpInfoOffsets.getD (readUnsignedShort s.c.b (currentOffset + 1)) 0
    let nameAndTypeCpInfoOffset :=
      s.c.cpInfoOffsets.getD (readUnsignedShort s.c.b (cpInfoOffset + 2)) 0
    let owner := readClass s.c cpInfoOffset
    let name := readUTF8 s.c nameAndTypeCpInfoOffset
    let desc := readUTF8 s.c (nameAndTypeCpInfoOffset + 2)
    let s :=
      if opcode < INVOKEVIRTUAL then emit s (.visitFieldInsn opcode owner name desc)
      else
        emit s (.visitMethodInsn opcode owner name desc
          (byteAt s.c.b (cpInfoOffset - 1) = CONSTANT_INTERFACE_METHODREF_TAG))
    if opcode = INVOKEINTERFACE then (s, currentOffset + 5, insertFrame)
    else (s, currentOffset + 3, insertFrame)
  else if opcode = INVOKEDYNAMIC then
    let cpInfoOffset := s.c.cpInfoOffsets.getD (readUnsignedShort s.c.b (currentOffset + 1)) 0
    let nameAndTypeCpInfoOffset :=
      s.c.cpInfoOffsets.getD (readUnsignedShort s.c.b (cpInfoOffset + 2)) 0
    let name := readUTF8 s.c nameAndTypeCpInfoOffset
    let desc := readUTF8 s.c (nameAndTypeCpInfoOffset + 2)
    let bootstrapMethodOffset :=
      s.bootstrapMethodOffsets.getD (readUnsignedShort s.c.b cpInfoOffset) 0
    let handle := match readConst s.c (readUnsignedShort s.c.b bootstrapMethodOffset) with
      | .ok v => v
      | .error _ => .knil
    match handle with
    | .khandle tag owner hname hdesc itf =>
      let args := bsmArgs s.c (readUnsignedShort s.c.b (bootstrapMethodOffset + 2))
        (bootstrapMethodOffset + 4) []
      (emit s (.visitInvokeDynamicInsn name desc (.khandle tag owner hname hdesc itf) args),
        currentOffset + 5, insertFrame)
    | _ => (setErr s "interface conversion: not a Handle", currentOffset, insertFrame)
  else if opcode = NEW ∨ opcode = ANEWARRAY ∨ opcode = CHECKCAST ∨ opcode = INSTANCEOF then
    (emit s (.visitTypeInsn opcode (readClass s.c (currentOffset + 1))),
      currentOffset + 3, insertFrame)
  else if opcode = IINC then
    (emit s (.visitIincInsn (byteAt s.c.b (currentOffset + 1) &&& 0xFF)
        (byteAt s.c.b (currentOffset + 2) : Int)), currentOffset + 3, insertFrame)
  else if opcode = MULTIANEWARRAY then
    (emit s (.visitMultiANewArrayInsn (readClass s.c (currentOffset + 1))
        (byteAt s.c.b (currentOffset + 3) &&& 0xFF)), currentOffset + 4, insertFrame)
  else
    (setErr s "Assertion Error", currentOffset, insertFrame)

/-- `Label.accept(methodVisitor, visitLineNumbers)` (label.go lines 74-84):
`VisitLabel`, then the primary and extra line numbers. -/
def labelAccept (s : RState) (l : LabelS) (off : Nat) (visitLineNumbers : Bool) : RState :=
  let s := emit s (.visitLabel off)
  if visitLineNumbers ∧ l.lineNumber ≠ 0 then
    let s := emit s (.visitLineNumber (l.lineNumber &&& 0xFFFF) off)
    match l.otherLineNumbers with
    | none => s
    | some arr =>
      (List.range' 1 (arr.getD 0 0)).foldl
        (fun s i => emit s (.visitLineNumber (arr.getD i 0) off)) s
  else s

/-- The pending-stack-map-frame drain loop at the top of each pass-2
iteration (part_006 lines 1081-1095).  `fuel` bounds the iterations
(`stackMapTableEndOffset + 2` suffices: the frame cursor strictly advances
until it is cleared to 0). -/
def drainFrames (s : RState) (fuel stackMapFrameOffset stackMapTableEndOffset : Nat)
    (compressedFrames expandFrames : Bool) (currentBytecodeOffset : Nat) (insertFrame : Bool) :
    RState × Nat × Bool :=
  match fuel with
  | 0 => (s, stackMapFrameOffset, insertFrame)
  | fuel + 1 =>
    if stackMapFrameOffset ≠ 0 ∧
        (s.currentFrameOffset = (currentBytecodeOffset : Int) ∨ s.currentFrameOffset = -1) then
      let r :=
        if s.currentFrameOffset ≠ -1 then
          let s :=
            if ¬compressedFrames ∨ expandFrames then
              emit s (.visitFrame F_NEW s.currentFrameLocalCount (some s.currentFrameLocalTypes) s.currentFrameStackCount (some s.currentFrameStackTypes))
            else
              emit s (.visitFrame s.currentFrameType s.currentFrameLocalCountDelta (some s.currentFrameLocalTypes) s.currentFrameStackCount (some s.currentFrameStackTypes))
          (s, false)
        else (s, insertFrame)
      match r with
      | (s, insertFrame) =>
        if stackMapFrameOffset < stackMapTableEndOffset then
          match readStackMapFrame s stackMapFrameOffset compressedFrames expandFrames with
          | (s, newOffset) =>
            drainFrames s fuel newOffset stackMapTableEndOffset compressedFrames expandFrames
              currentBytecodeOffset insertFrame
        else
          drainFrames s fuel 0 stackMapTableEndOffset compressedFrames expandFrames
            currentBytecodeOffset insertFrame
    else (s, stackMapFrameOffset, insertFrame)

/-- The per-instruction type-annotation interleave loop (part_006 lines
1317-1337, one instance per visibility).  Emits `VisitInsnAnnotation`
exactly when the target's recorded bytecode offset equals the offset of the
instruction just decoded. -/
def interleave (s : RState) (offsets : Option (List Nat)) (fuel idx : Nat) (bco : Int)
    (currentBytecodeOffset : Nat) (visible : Bool) : RState × Nat × Int :=
  match fuel with
  | 0 => (s, idx, bco)
  | fuel + 1 =>
    if s.err.isSome then (s, idx, bco)
    else
      match offsets with
      | none => (s, idx, bco)
      | some offs =>
        if idx < offs.length ∧ bco ≤ (currentBytecodeOffset : Int) then
          let s :=
            if bco = (currentBytecodeOffset : Int) then
              match readTypeAnnotationTarget s (offs.getD idx 0) with
              | (s, currentAnnotationOffset) =>
                let annotationDescriptor := readUTF8 s.c currentAnnotationOffset
                emit s (.visitInsnAnnot s.currentTypeAnnotTarget s.currentTypeAnnotTargetPath
                  annotationDescriptor visible)
            else s
          interleave s offsets fuel (idx + 1)
            (getTypeAnnotationBytecodeOffset s.c offsets (idx + 1)) currentBytecodeOffset visible
        else (s, idx, bco)

/-- The pass-2 loop (part_006 lines 1074-1338): per offset, the label
accept, the frame drain, the pending F_INSERT frame, the instruction
decode, and the two annotation interleaves. -/
def pass2 (s : RState) (fuel currentOffset bytecodeStartOffset bytecodeEndOffset stackMapFrameOffset stackMapTableEndOffset : Nat)
    (compressedFrames expandFrames : Bool) (wideJumpOpcodeDelta : Nat)
    (visOffsets invisOffsets : Option (List Nat)) (visIdx : Nat) (visBCO : Int)
    (invIdx : Nat) (invBCO : Int) (insertFrame : Bool) : RState :=
  match fuel with
  | 0 => s
  | fuel + 1 =>
    if s.err.isSome then s
    else if currentOffset < bytecodeEndOffset then
      let currentBytecodeOffset := currentOffset - bytecodeStartOffset
      let s :=
        match (s.labels : List (Option LabelS)).getD currentBytecodeOffset none with
        | none => s
        | some currentLabel =>
          labelAccept s currentLabel currentBytecodeOffset
            (s.parsingOptions &&& SKIP_DEBUG = 0)
      match drainFrames s (stackMapTableEndOffset + 2) stackMapFrameOffset
        stackMapTableEndOffset compressedFrames expandFrames currentBytecodeOffset
        insertFrame with
      | (s, stackMapFrameOffset, insertFrame) =>
        let r :=
          if insertFrame then
            ((if s.parsingOptions &&& EXPAND_FRAMS ≠ 0 then
                emit s (.visitFrame F_INSERT 0 none 0 none)
              else s), false)
          else (s, insertFrame)
        match r with
        | (s, insertFrame) =>
          match decodeInsn s currentOffset currentBytecodeOffset insertFrame
            wideJumpOpcodeDelta with
          | (s, currentOffset, insertFrame) =>
            match interleave s visOffsets ((visOffsets.getD []).length + 1) visIdx visBCO
              currentBytecodeOffset true with
            | (s, visIdx, visBCO) =>
              match interleave s invisOffsets ((invisOffsets.getD []).length + 1) invIdx
                invBCO currentBytecodeOffset false with
              | (s, invIdx, invBCO) =>
                pass2 s fuel currentOffset bytecodeStartOffset bytecodeEndOffset
                  stackMapFrameOffset stackMapTableEndOffset compressedFrames expandFrames
                  wideJumpOpcodeDelta visOffsets invisOffsets visIdx visBCO invIdx invBCO
                  insertFrame
    else s

/-- Build the LocalVariableTypeTable lookup triples (startPc, index,
signature-offset); the source fills its flat array from the end, so the
first parsed entry lands at the highest indices — the resulting triple
order is the reverse of the entry order. -/
def lvttBuild (b : List Nat) (n currentOffset : Nat) (acc : List (Nat × Nat × Nat)) :
    List (Nat × Nat × Nat) :=
  match n with
  | 0 => acc
  | n + 1 =>
    lvttBuild b n (currentOffset + 10)
      ((readUnsignedShort b currentOffset, readUnsignedShort b (currentOffset + 8),
        currentOffset + 6) :: acc)

/-- The generic-signature lookup over the type-table triples. -/
def typeTableFind (c : ClassReader) (tt : List (Nat × Nat × Nat)) (startPc index : Nat) :
    List Nat :=
  match tt with
  | [] => []
  | (sPc, idx, sigOff) :: rest =>
    if sPc = startPc ∧ idx = index then readUTF8 c sigOff
    else typeTableFind c rest startPc index

/-- The LocalVariableTable emission loop (lines 1359-1379). -/
def lvtEmit (s : RState) (n currentOffset : Nat) (typeTable : List (Nat × Nat × Nat)) :
    RState :=
  match n with
  | 0 => s
  | n + 1 =>
    let startPc := readUnsignedShort s.c.b currentOffset
    let length := readUnsignedShort s.c.b (currentOffset + 2)
    let name := readUTF8 s.c (currentOffset + 4)
    let descriptor := readUTF8 s.c (currentOffset + 6)
    let index := readUnsignedShort s.c.b (currentOffset + 8)
    let signature := typeTableFind s.c typeTable startPc index
    let startLbl : Option Nat :=
      if ((s.labels : List (Option LabelS)).getD startPc none).isSome then some startPc else none
    let endLbl : Option Nat :=
      if ((s.labels : List (Option LabelS)).getD (startPc + length) none).isSome then
        some (startPc + length)
      else none
    lvtEmit (emit s (.visitLocalVariable name descriptor signature startLbl endLbl index)) n
      (currentOffset + 10) typeTable

/-- The local-variable type-annotation emission loop (lines 1382-1422).
Both the visible and the invisible loop read the `targetType` byte from the
*visible* offset array (the invisible loop does so by a bug in the source,
line 1405); when the visible array is nil Go would panic there. -/
def lvaLoop (s : RState) (tOffsets : Option (List Nat)) (offs : List Nat) (fuel i : Nat)
    (visible : Bool) : RState :=
  match fuel with
  | 0 => s
  | fuel + 1 =>
    if i < offs.length then
      if s.err.isSome then s
      else
        let s :=
          match tOffsets with
          | none => setErr s "runtime error: index out of range"
          | some vo =>
            let targetType := readByte s.c.b (vo.getD i 0)
            if targetType = TR_LOCAL_VARIABLE ∨ targetType = TR_RESOURCE_VARIABLE then
              match readTypeAnnotationTarget s (offs.getD i 0) with
              | (s, currentOffset) =>
                let annotationDescriptor := readUTF8 s.c currentOffset
                emit s (.visitLocalVariableAnnot s.currentTypeAnnotTarget
                  s.currentTypeAnnotTargetPath s.currentLvaStarts s.currentLvaEnds
                  s.currentLvaIndices annotationDescriptor visible)
            else s
        lvaLoop s tOffsets offs fuel (i + 1) visible
    else s

/-- The tail of `readCode` (lines 1340-1431): end-of-code label,
LocalVariableTable entries, local-variable type annotations, opaque
attributes, `VisitMaxs`. -/
def readCodeTail (s : RState) (cAttrs : CodeAttrs) (codeLength maxStack maxLocals : Nat) :
    RState :=
  let s :=
    match (s.labels : List (Option LabelS)).getD codeLength none with
    | none => s
    | some _ => emit s (.visitLabel codeLength)
  let s :=
    if cAttrs.localVariableTableOffset ≠ 0 ∧ s.parsingOptions &&& SKIP_DEBUG = 0 then
      let typeTable :=
        if cAttrs.localVariableTypeTableOffset ≠ 0 then
          lvttBuild s.c.b (readUnsignedShort s.c.b cAttrs.localVariableTypeTableOffset)
            (cAttrs.localVariableTypeTableOffset + 2) []
        else []
      lvtEmit s (readUnsignedShort s.c.b cAttrs.localVariableTableOffset)
        (cAttrs.localVariableTableOffset + 2) typeTable
    else s
  let s :=
    match cAttrs.visibleTypeAnnotationOffsets with
    | none => s
    | some offs =>
      lvaLoop s cAttrs.visibleTypeAnnotationOffsets offs offs.length 0 true
  let s :=
    match cAttrs.invisibleTypeAnnotationOffsets with
    | none => s
    | some offs =>
      lvaLoop s cAttrs.visibleTypeAnnotationOffsets offs offs.length 0 false
  let s := cAttrs.attributes.foldl (fun s a => emit s (.visitAttr a.typed)) s
  emit s (.visitMaxs maxStack maxLocals)

/-- `readCode(methodVisitor, context, codeOffset)` (part_006 lines
836-1432), over the state's class reader, parse options, bootstrap-method
offsets and current-method context. -/
def readCode (s : RState) (codeOffset : Nat) : RState :=
  let maxStack := readUnsignedShort s.c.b codeOffset
  let maxLocals := readUnsignedShort s.c.b (codeOffset + 2)
  let codeLength := readInt s.c.b (codeOffset + 4)
  let currentOffset := codeOffset + 8
  let bytecodeStartOffset := currentOffset
  let bytecodeEndOffset := currentOffset + codeLength
  let s := { s with labels := List.replicate (codeLength + 1) none }
  match pass1 s (codeLength + 1) currentOffset bytecodeStartOffset bytecodeEndOffset with
  | (s, currentOffset) =>
    if s.err.isSome then s
    else
      match exceptionTable s currentOffset with
      | (s, currentOffset) =>
        let attributesCount := readUnsignedShort s.c.b currentOffset
        match attrScan s attributesCount (currentOffset + 2) {} with
        | (s, _, cAttrs) =>
          if s.err.isSome then s
          else
            let expandFrames := s.parsingOptions &&& EXPAND_FRAMS ≠ 0
            let s :=
              if cAttrs.stackMapFrameOffset ≠ 0 then
                let s := { s with currentFrameOffset := -1, currentFrameType := 0, currentFrameLocalCount := 0, currentFrameLocalCountDelta := 0, currentFrameLocalTypes := List.replicate maxLocals .fnil, currentFrameStackCount := 0, currentFrameStackTypes := List.replicate maxStack .fnil }
                let s := if expandFrames then computeImplicitFame s else s
                smPreScan s cAttrs.stackMapTableEndOffset cAttrs.stackMapFrameOffset
                  (cAttrs.stackMapTableEndOffset - 2) bytecodeStartOffset codeLength
              else s
            let s :=
              if expandFrames ∧ s.parsingOptions &&& EXPAND_ASM_INSNS ≠ 0 then
                emit s (.visitFrame F_NEW (maxLocals : Int) none 0 none)
              else s
            let visBCO := getTypeAnnotationBytecodeOffset s.c
              cAttrs.visibleTypeAnnotationOffsets 0
            let invBCO := getTypeAnnotationBytecodeOffset s.c
              cAttrs.invisibleTypeAnnotationOffsets 0
            let wideJumpOpcodeDelta :=
              if s.parsingOptions &&& EXPAND_ASM_INSNS = 0 then WIDE_JUMP_OPCODE_DELTA else 0
            let s := pass2 s (codeLength + 1) bytecodeStartOffset bytecodeStartOffset
              bytecodeEndOffset cAttrs.stackMapFrameOffset cAttrs.stackMapTableEndOffset
              cAttrs.compressedFrames expandFrames wideJumpOpcodeDelta
              cAttrs.visibleTypeAnnotationOffsets cAttrs.invisibleTypeAnnotationOffsets
              0 visBCO 0 invBCO false
            if s.err.isSome then s
            else readCodeTail s cAttrs codeLength maxStack maxLocals

/-- The event trace of `readCode` on a fresh state: class reader `c`,
parse options, bootstrap-method offsets and current-method context as
`readMethod` would have set them. -/
def readCodeTrace (c : ClassReader) (parsingOptions : Nat) (bootstrapMethodOffsets : List Nat)
    (methodAccessFlags : Nat) (methodName methodDescriptor : List Nat) (codeOffset : Nat) :
    RState :=
  readCode { c := c, parsingOptions := parsingOptions, bootstrapMethodOffsets := bootstrapMethodOffsets, currentMethodAccessFlags := methodAccessFlags, currentMethodName := methodName, currentMethodDescriptor := methodDescriptor } codeOffset

/-- A Code attribute (at offset 0) whose bytecode is the single ASM-specific
conditional `ASM_IFEQ 0x01 0x00`: maxStack 1, maxLocals 1, code_length 3,
empty exception table, no attributes.  The two target bytes encode the
unsigned big-endian offset 256. -/
def c6buf : List Nat := [0, 1, 0, 1, 0, 0, 0, 3, 202, 1, 0, 0, 0, 0, 0]

def c6cr : ClassReader := { b := c6buf, cpInfoOffsets := [], maxStringLength := 0, header := 0 }

/-- **C6.** Decoding an ASM-specific conditional with EXPAND_ASM_INSNS
unset emits the inverted conditional (`((op+1)^1)-1` below GOTO: here
ASM_IFEQ 202 → IFEQ 153 → IFNE 154) to the fall-through label at
instruction offset + 3, followed by `VisitJumpInsn(GOTO_W, target)` — all
as the claim states — but the claim's "target is read as an unsigned 2-byte
offset" fails: `readUnsignedShort` only sees the low byte, so target bytes
0x01 0x00 (claimed target 256) produce a GOTO_W to offset 0. -/
theorem C6_asm_conditional_target_low_byte_only :
    (readCodeTrace c6cr 0 [] 0 [] [] 0).events =
      [.visitLabel 0, .visitJumpInsn 154 3, .visitJumpInsn 200 0, .visitLabel 3,
       .visitMaxs 1 1] ∧
    (readCodeTrace c6cr 0 [] 0 [] [] 0).err = none ∧
    256 * byteAt c6buf 9 + byteAt c6buf 10 = 256 ∧
    ((IFEQ + 1) ^^^ 1) - 1 = IFNE ∧
    ¬ (VisitEvent.visitJumpInsn GOTO_W 256) ∈ (readCodeTrace c6cr 0 [] 0 [] [] 0).events := by
  decide

/-- A Code attribute (at offset 0) whose bytecode is a single TABLESWITCH
with default 0, low = 2, high = 0 (so high < low - 1): 3 pad bytes, then
the three operand words, code_length 16, empty exception table, no
attributes. -/
def c8buf : List Nat :=
  [0, 0, 0, 0, 0, 0, 0, 16,
   170, 0, 0, 0, 0, 0, 0, 0, 0, 0, 0, 2, 0, 0, 0, 0,
   0, 0, 0, 0]

def c8cr : ClassReader := { b := c8buf, cpInfoOffsets := [], maxStringLength := 0, header := 0 }

/-- **C8, counterexample.** The claim says a TABLESWITCH with high < low is
emitted via `VisitTableSwitchInsn` with its default label and an empty
table.  For high = 0, low = 2 the source computes `make([]*Label, high-low+1)`
with negative length, which panics: no switch event is emitted at all (the
trace stops after the pass-1 label's `VisitLabel`). -/
theorem C8_tableswitch_high_lt_low_panics :
    (readCodeTrace c8cr 0 [] 0 [] [] 0).events = [.visitLabel 0] ∧
    (readCodeTrace c8cr 0 [] 0 [] [] 0).err = some "makeslice: len out of range" ∧
    readInt c8buf 16 = 2 ∧ readInt c8buf 20 = 0 ∧
    (∀ lo hi dflt table,
      ¬ (VisitEvent.visitTableSwitchInsn lo hi dflt table) ∈
        (readCodeTrace c8cr 0 [] 0 [] [] 0).events) := by
  refine ⟨by decide, by decide, by decide, by decide, ?_⟩
  intro lo hi dflt table h
  have he : (readCodeTrace c8cr 0 [] 0 [] [] 0).events = [.visitLabel 0] := by decide
  rw [he] at h
  simp at h

/-- **C8, amended.**  A LOOKUPSWITCH whose npairs word decodes to 0 emits
`VisitLookupSwitchInsn` with empty keys and labels and the decoded default
label; a TABLESWITCH whose low word decodes to high + 1 (the only
`high < low` shape that does not panic) emits `VisitTableSwitchInsn` with
an empty table and the decoded default label.  (For high < low − 1 the
negative table allocation panics instead — see the counterexample.) -/
theorem C8_empty_switch_targets (s : RState) (currentOffset currentBytecodeOffset : Nat)
    (insF : Bool) (delta : Nat) (hne : s.err = none) :
    (byteAt s.c.b currentOffset &&& 0xFF = LOOKUPSWITCH →
      readInt s.c.b (currentOffset + (4 - (currentBytecodeOffset &&& 3)) + 4) = 0 →
      decodeInsn s currentOffset currentBytecodeOffset insF delta =
        ({ s with events := s.events ++
            [.visitLookupSwitchInsn (currentBytecodeOffset + readInt s.c.b (currentOffset + (4 - (currentBytecodeOffset &&& 3)))) [] []] },
          currentOffset + (4 - (currentBytecodeOffset &&& 3)) + 8, insF)) ∧
    (byteAt s.c.b currentOffset &&& 0xFF = TABLESWITCH →
      readInt s.c.b (currentOffset + (4 - (currentBytecodeOffset &&& 3)) + 4) =
        readInt s.c.b (currentOffset + (4 - (currentBytecodeOffset &&& 3)) + 8) + 1 →
      decodeInsn s currentOffset currentBytecodeOffset insF delta =
        ({ s with events := s.events ++
            [.visitTableSwitchInsn (readInt s.c.b (currentOffset + (4 - (currentBytecodeOffset &&& 3)) + 4)) (readInt s.c.b (currentOffset + (4 - (currentBytecodeOffset &&& 3)) + 8)) (currentBytecodeOffset + readInt s.c.b (currentOffset + (4 - (currentBytecodeOffset &&& 3)))) []] },
          currentOffset + (4 - (currentBytecodeOffset &&& 3)) + 12, insF)) := by
  constructor
  · intro hop hz
    simp only [decodeInsn]
    rw [hop]
    rw [if_neg (by decide), if_neg (by decide), if_neg (by decide), if_neg (by decide),
      if_neg (by decide), if_neg (by decide), if_neg (by decide), if_neg (by decide),
      if_neg (by decide), if_pos (by decide)]
    rw [hz]
    simp [p2LookupPairs, emit, hne]
  · intro hop hz
    simp only [decodeInsn]
    rw [hop]
    rw [if_neg (by decide), if_neg (by decide), if_neg (by decide), if_neg (by decide),
      if_neg (by decide), if_neg (by decide), if_neg (by decide), if_neg (by decide),
      if_pos (by decide)]
    rw [hz]
    rw [if_neg (by push_cast; omega)]
    have ht : ((readInt s.c.b (currentOffset + (4 - (currentBytecodeOffset &&& 3)) + 8) : Int) -
        ((readInt s.c.b (currentOffset + (4 - (currentBytecodeOffset &&& 3)) + 8) + 1 : Nat) : Int) +
        1).toNat = 0 := by
      push_cast
      omega
    rw [ht]
    simp [p2TableTargets, emit, hne]

/-- Witness for C8 at the concrete empty LOOKUPSWITCH of a fresh state over
`c8buf`-like bytes: opcode 171 at offset 0, npairs word 0. -/
theorem C8_empty_switch_targets_witness :
    byteAt [171, 0, 0, 0, 0, 0, 0, 0, 0, 0, 0, 0] 0 &&& 0xFF = LOOKUPSWITCH ∧
    readInt [171, 0, 0, 0, 0, 0, 0, 0, 0, 0, 0, 0] (0 + (4 - (0 &&& 3)) + 4) = 0 ∧
    decodeInsn { c := { b := [171, 0, 0, 0, 0, 0, 0, 0, 0, 0, 0, 0], cpInfoOffsets := [], maxStringLength := 0, header := 0 } } 0 0 false 33 =
      ({ c := { b := [171, 0, 0, 0, 0, 0, 0, 0, 0, 0, 0, 0], cpInfoOffsets := [], maxStringLength := 0, header := 0 }, events := [.visitLookupSwitchInsn 0 [] []] }, 12, false) := by
  refine ⟨by decide, by decide, ?_⟩
  have h := (C8_empty_switch_targets { c := { b := [171, 0, 0, 0, 0, 0, 0, 0, 0, 0, 0, 0], cpInfoOffsets := [], maxStringLength := 0, header := 0 } } 0 0 false 33 rfl).1 (by decide) (by decide)
  have hr : readInt [171, 0, 0, 0, 0, 0, 0, 0, 0, 0, 0, 0] 4 = 0 := by decide
  simpa [hr] using h

/-! The four class-level annotation streams of `AcceptB` (part_006 lines
338-381).  Annotation sub-visitors are modelled as nil (as the bundled demo
visitor returns), under which `readElementValues` only advances offsets. -/

/-- One plain annotation stream (`VisitAnnotation` per entry). -/
def annStream (s : RState) (numAnnotations currentAnnotationOffset : Nat) (visible : Bool) :
    RState :=
  match numAnnotations with
  | 0 => s
  | n + 1 =>
    let annotationDescriptor := readUTF8 s.c currentAnnotationOffset
    let currentAnnotationOffset := currentAnnotationOffset + 2
    let s := emit s (.visitAnnot annotationDescriptor visible)
    let currentAnnotationOffset :=
      skipElementValues s.c.b (s.c.b.length + 8) currentAnnotationOffset true
    annStream s n currentAnnotationOffset visible

/-- One type-annotation stream (`VisitTypeAnnotation` per entry, after
decoding the target). -/
def typeAnnStream (s : RState) (numAnnotations currentAnnotationOffset : Nat) (visible : Bool) :
    RState :=
  match numAnnotations with
  | 0 => s
  | n + 1 =>
    match readTypeAnnotationTarget s currentAnnotationOffset with
    | (s, currentAnnotationOffset) =>
      let annotationDescriptor := readUTF8 s.c currentAnnotationOffset
      let currentAnnotationOffset := currentAnnotationOffset + 2
      let s := emit s (.visitTypeAnnot s.currentTypeAnnotTarget s.currentTypeAnnotTargetPath
        annotationDescriptor visible)
      let currentAnnotationOffset :=
        skipElementValues s.c.b (s.c.b.length + 8) currentAnnotationOffset true
      typeAnnStream s n currentAnnotationOffset visible

/-- Lines 338-381 of `AcceptB`: the four annotation streams, with the four
attribute offsets as the class attribute scan left them.  The third block
(guarded by `runtimeVisibleTypeAnnotationsOffset != 0`) reads its count and
entries from `runtimeInvisibleAnnotationsOffset` and calls
`VisitAnnotation(descriptor, false)` — the source bug the spec flags. -/
def classAnnStreams (s : RState) (runtimeVisibleAnnotationsOffset runtimeInvisibleAnnotationsOffset runtimeVisibleTypeAnnotationsOffset runtimeInvisibleTypeAnnotationsOffset : Nat) : RState :=
  let s :=
    if runtimeVisibleAnnotationsOffset ≠ 0 then
      annStream s (readUnsignedShort s.c.b runtimeVisibleAnnotationsOffset)
        (runtimeVisibleAnnotationsOffset + 2) true
    else s
  let s :=
    if runtimeInvisibleAnnotationsOffset ≠ 0 then
      annStream s (readUnsignedShort s.c.b runtimeInvisibleAnnotationsOffset)
        (runtimeInvisibleAnnotationsOffset + 2) false
    else s
  let s :=
    if runtimeVisibleTypeAnnotationsOffset ≠ 0 then
      annStream s (readUnsignedShort s.c.b runtimeInvisibleAnnotationsOffset)
        (runtimeInvisibleAnnotationsOffset + 2) false
    else s
  let s :=
    if runtimeInvisibleTypeAnnotationsOffset ≠ 0 then
      typeAnnStream s (readUnsignedShort s.c.b runtimeInvisibleTypeAnnotationsOffset)
        (runtimeInvisibleTypeAnnotationsOffset + 2) false
    else s
  s

/-- A class buffer whose RuntimeVisibleTypeAnnotations attribute content
sits at offset 100 with (big-endian and low-byte) annotation count 1, and
which has no Runtime(In)VisibleAnnotations attribute (those offsets are 0). -/
def c2buf : List Nat := (List.replicate 102 0).set 101 1

def c2cr : ClassReader := { b := c2buf, cpInfoOffsets := [], maxStringLength := 0, header := 0 }

/-- **C2.** The claim (canonical JVMS behaviour, which the spec endorses
against the source's flagged bug): with a RuntimeVisibleTypeAnnotations
attribute at offset 100 holding one annotation, `Accept` should read the
count from that offset and emit one `VisitTypeAnnotation(..., true)` in the
third stream.  The source's third branch instead reads the count from
`runtimeInvisibleAnnotationsOffset` (here 0, so `readUnsignedShort(0)` = 0
entries) and would call `VisitAnnotation(..., false)`: nothing at all is
emitted, and in particular no visible `VisitTypeAnnotation` ever is. -/
theorem C2_visible_type_annotations_read_from_invisible_offset :
    (classAnnStreams { c := c2cr } 0 0 100 0).events = [] ∧
    readUnsignedShort c2buf 100 = 1 ∧
    (∀ tr tp d v,
      ¬ (VisitEvent.visitTypeAnnot tr tp d v) ∈ (classAnnStreams { c := c2cr } 0 0 100 0).events) ∧
    (∀ d, ¬ (VisitEvent.visitAnnot d true) ∈ (classAnnStreams { c := c2cr } 0 0 100 0).events) := by
  refine ⟨by decide, by decide, ?_, ?_⟩
  · intro tr tp d v h
    have he : (classAnnStreams { c := c2cr } 0 0 100 0).events = [] := by decide
    rw [he] at h
    simp at h
  · intro d h
    have he : (classAnnStreams { c := c2cr } 0 0 100 0).events = [] := by decide
    rw [he] at h
    simp at h

/-! Phase invariants for the ordering and frame-effect claims: every reader
phase leaves the class reader (hence the byte buffer) untouched, only
appends to the event trace, and — parametrised by a discriminator `Q` —
introduces no new `Q`-events. -/

def Pres (Q : VisitEvent → Bool) (s t : RState) : Prop :=
  t.c = s.c ∧ s.events <+: t.events ∧
    ∀ i e, t.events.get? i = some e → Q e = true → s.events.get? i = some e

theorem Pres_rfl {Q : VisitEvent → Bool} {s : RState} : Pres Q s s :=
  ⟨rfl, List.prefix_rfl, fun _ _ h _ => h⟩

theorem Pres_trans {Q : VisitEvent → Bool} {s t u : RState} (h1 : Pres Q s t)
    (h2 : Pres Q t u) : Pres Q s u :=
  ⟨h2.1.trans h1.1, h1.2.1.trans h2.2.1, fun i e hi hq => h1.2.2 i e (h2.2.2 i e hi hq) hq⟩

theorem Pres_of_eq {Q : VisitEvent → Bool} {s t : RState} (hc : t.c = s.c)
    (he : t.events = s.events) : Pres Q s t :=
  ⟨hc, he ▸ List.prefix_rfl, fun i e hi _ => he ▸ hi⟩

theorem Pres_emit {Q : VisitEvent → Bool} {s : RState} {e : VisitEvent} (hq : Q e = false) :
    Pres Q s (emit s e) := by
  unfold emit
  split
  · exact Pres_rfl
  · refine ⟨rfl, List.prefix_append _ _, ?_⟩
    intro i f hi hq'
    rcases Nat.lt_or_ge i s.events.length with hlt | hge
    · rwa [List.get?_append hlt] at hi
    · rw [List.get?_append_right hge] at hi
      rcases hk : i - s.events.length with _ | k
      · rw [hk] at hi
        simp at hi
        rw [hi] at hq
        rw [hq] at hq'
        cases hq'
      · rw [hk] at hi
        simp at hi

theorem setErr_pres {Q : VisitEvent → Bool} {s : RState} {m : String} :
    Pres Q s (setErr s m) := by
  unfold setErr
  split
  · exact Pres_rfl
  · exact Pres_of_eq rfl rfl

theorem createLabelS_pres {Q : VisitEvent → Bool} {s : RState} {off : Nat} :
    Pres Q s (createLabelS s off) := Pres_of_eq rfl rfl

theorem createDebugLabelS_pres {Q : VisitEvent → Bool} {s : RState} {off : Nat} :
    Pres Q s (createDebugLabelS s off) := Pres_of_eq rfl rfl

theorem modifyLabel_pres {Q : VisitEvent → Bool} {s : RState} {off : Nat} {f : LabelS → LabelS} :
    Pres Q s (modifyLabel s off f) := by
  unfold modifyLabel
  split
  · exact Pres_rfl
  · exact Pres_of_eq rfl rfl

theorem setFrameSlot_pres {Q : VisitEvent → Bool} {s : RState} {b : Bool} {i : Nat}
    {v : FrameItem} : Pres Q s (setFrameSlot s b i v) := by
  unfold setFrameSlot
  split
  · exact Pres_of_eq rfl rfl
  · exact Pres_of_eq rfl rfl

theorem taLvLoop_pres {Q : VisitEvent → Bool} (n : Nat) :
    ∀ (s : RState) (off : Nat), Pres Q s (taLvLoop s n off).1 := by
  induction n with
  | zero => intro s off; exact Pres_rfl
  | succ n ih =>
    intro s off
    exact Pres_trans (Pres_trans createLabelS_pres createLabelS_pres) (ih _ _)

theorem taTargetLvLoop_pres {Q : VisitEvent → Bool} (n : Nat) :
    ∀ (s : RState) (off : Nat) (a b c : List Nat),
      Pres Q s (taTargetLvLoop s n off a b c).1 := by
  induction n with
  | zero => intro s off a b c; exact Pres_rfl
  | succ n ih =>
    intro s off a b c
    exact Pres_trans (Pres_trans createLabelS_pres createLabelS_pres) (ih _ _ _ _ _)

-- readTypeAnnotationTarget only reads the buffer, updates scratch fields and
-- possibly signals an error; it never emits events and never changes the class data.
set_option maxHeartbeats 1000000 in
set_option maxRecDepth 8192 in
theorem readTypeAnnotationTarget_pres {Q : VisitEvent → Bool} {s : RState} {o : Nat} :
    Pres Q s (readTypeAnnotationTarget s o).1 := by
  simp only [readTypeAnnotationTarget]
  repeat' split
  all_goals try exact setErr_pres
  all_goals try exact Pres_of_eq rfl rfl
  all_goals rename_i br sB tB cB heq hpath
  all_goals repeat' split at heq
  all_goals cases heq
  all_goals try exact Pres_of_eq rfl rfl
  all_goals try exact Pres_trans (taTargetLvLoop_pres _ _ _ _ _ _) (Pres_of_eq rfl rfl)

theorem setFrameSlot_c (s : RState) (st : Bool) (i : Nat) (v : FrameItem) :
    (setFrameSlot s st i v).c = s.c := by
  unfold setFrameSlot; split <;> rfl

theorem setFrameSlot_events (s : RState) (st : Bool) (i : Nat) (v : FrameItem) :
    (setFrameSlot s st i v).events = s.events := by
  unfold setFrameSlot; split <;> rfl

theorem createLabelS_c (s : RState) (off : Nat) : (createLabelS s off).c = s.c := rfl

theorem createLabelS_events (s : RState) (off : Nat) :
    (createLabelS s off).events = s.events := rfl

theorem readVerificationTypeInfo_c (s : RState) (o : Nat) (st : Bool) (i : Nat) :
    (readVerificationTypeInfo s o st i).1.c = s.c := by
  simp only [readVerificationTypeInfo]
  repeat' split
  all_goals simp [setFrameSlot_c, createLabelS_c]

theorem readVerificationTypeInfo_events (s : RState) (o : Nat) (st : Bool) (i : Nat) :
    (readVerificationTypeInfo s o st i).1.events = s.events := by
  simp only [readVerificationTypeInfo]
  repeat' split
  all_goals simp [setFrameSlot_events, createLabelS_events]

theorem rsfAppendLoop_c (k : Nat) : ∀ (s : RState) (o li : Nat),
    (rsfAppendLoop s k o li).1.c = s.c := by
  induction k with
  | zero => intro s o li; rfl
  | succ k ih =>
    intro s o li
    have h : rsfAppendLoop s (k + 1) o li =
        rsfAppendLoop (readVerificationTypeInfo s o false li).1 k
          (readVerificationTypeInfo s o false li).2 (li + 1) := rfl
    rw [h, ih, readVerificationTypeInfo_c]

theorem rsfAppendLoop_events (k : Nat) : ∀ (s : RState) (o li : Nat),
    (rsfAppendLoop s k o li).1.events = s.events := by
  induction k with
  | zero => intro s o li; rfl
  | succ k ih =>
    intro s o li
    have h : rsfAppendLoop s (k + 1) o li =
        rsfAppendLoop (readVerificationTypeInfo s o false li).1 k
          (readVerificationTypeInfo s o false li).2 (li + 1) := rfl
    rw [h, ih, readVerificationTypeInfo_events]

theorem rsfFullLoop_c (n : Nat) : ∀ (s : RState) (o idx : Nat) (st : Bool),
    (rsfFullLoop s n o idx st).1.c = s.c := by
  induction n with
  | zero => intro s o idx st; rfl
  | succ n ih =>
    intro s o idx st
    have h : rsfFullLoop s (n + 1) o idx st =
        rsfFullLoop (readVerificationTypeInfo s o st idx).1 n
          (readVerificationTypeInfo s o st idx).2 (idx + 1) st := rfl
    rw [h, ih, readVerificationTypeInfo_c]

theorem rsfFullLoop_events (n : Nat) : ∀ (s : RState) (o idx : Nat) (st : Bool),
    (rsfFullLoop s n o idx st).1.events = s.events := by
  induction n with
  | zero => intro s o idx st; rfl
  | succ n ih =>
    intro s o idx st
    have h : rsfFullLoop s (n + 1) o idx st =
        rsfFullLoop (readVerificationTypeInfo s o st idx).1 n
          (readVerificationTypeInfo s o st idx).2 (idx + 1) st := rfl
    rw [h, ih, readVerificationTypeInfo_events]

set_option maxHeartbeats 1000000 in
set_option maxRecDepth 8192 in
theorem readStackMapFrame_c (s : RState) (o : Nat) (compressed expand : Bool) :
    (readStackMapFrame s o compressed expand).1.c = s.c := by
  simp only [readStackMapFrame]
  repeat' split
  all_goals simp [createLabelS, readVerificationTypeInfo_c, rsfAppendLoop_c, rsfFullLoop_c]

set_option maxHeartbeats 1000000 in
set_option maxRecDepth 8192 in
theorem readStackMapFrame_events (s : RState) (o : Nat) (compressed expand : Bool) :
    (readStackMapFrame s o compressed expand).1.events = s.events := by
  simp only [readStackMapFrame]
  repeat' split
  all_goals simp [createLabelS, readVerificationTypeInfo_events, rsfAppendLoop_events,
    rsfFullLoop_events]

theorem readStackMapFrame_pres {Q : VisitEvent → Bool} (s : RState) (o : Nat)
    (compressed expand : Bool) : Pres Q s (readStackMapFrame s o compressed expand).1 :=
  Pres_of_eq (readStackMapFrame_c s o compressed expand)
    (readStackMapFrame_events s o compressed expand)

theorem cifLoop_c (fuel : Nat) : ∀ (s : RState) (d : List Nat) (o n : Nat),
    (cifLoop s d fuel o n).c = s.c := by
  induction fuel with
  | zero => intro s d o n; rfl
  | succ fuel ih =>
    intro s d o n
    simp only [cifLoop]
    repeat' split
    all_goals simp [ih, setFrameSlot_c]

theorem cifLoop_events (fuel : Nat) : ∀ (s : RState) (d : List Nat) (o n : Nat),
    (cifLoop s d fuel o n).events = s.events := by
  induction fuel with
  | zero => intro s d o n; rfl
  | succ fuel ih =>
    intro s d o n
    simp only [cifLoop]
    repeat' split
    all_goals simp [ih, setFrameSlot_events]

theorem computeImplicitFame_c (s : RState) : (computeImplicitFame s).c = s.c := by
  simp only [computeImplicitFame]
  repeat' split
  all_goals simp [cifLoop_c, setFrameSlot_c]

theorem computeImplicitFame_events (s : RState) :
    (computeImplicitFame s).events = s.events := by
  simp only [computeImplicitFame]
  repeat' split
  all_goals simp [cifLoop_events, setFrameSlot_events]

theorem smPreScan_c (fuel : Nat) : ∀ (s : RState) (o e bs cl : Nat),
    (smPreScan s fuel o e bs cl).c = s.c := by
  induction fuel with
  | zero => intro s o e bs cl; rfl
  | succ fuel ih =>
    intro s o e bs cl
    simp only [smPreScan]
    repeat' split
    all_goals simp [ih, createLabelS_c]

theorem smPreScan_events (fuel : Nat) : ∀ (s : RState) (o e bs cl : Nat),
    (smPreScan s fuel o e bs cl).events = s.events := by
  induction fuel with
  | zero => intro s o e bs cl; rfl
  | succ fuel ih =>
    intro s o e bs cl
    simp only [smPreScan]
    repeat' split
    all_goals simp [ih, createLabelS_events]

theorem setErr_c (s : RState) (m : String) : (setErr s m).c = s.c := by
  unfold setErr; split <;> rfl

theorem setErr_events (s : RState) (m : String) : (setErr s m).events = s.events := by
  unfold setErr; split <;> rfl

theorem p1TableLoop_c (n : Nat) : ∀ (s : RState) (bo o : Nat),
    (p1TableLoop s n bo o).1.c = s.c := by
  induction n with
  | zero => intro s bo o; rfl
  | succ n ih =>
    intro s bo o
    simp only [p1TableLoop]
    simp [ih, createLabelS_c]

theorem p1TableLoop_events (n : Nat) : ∀ (s : RState) (bo o : Nat),
    (p1TableLoop s n bo o).1.events = s.events := by
  induction n with
  | zero => intro s bo o; rfl
  | succ n ih =>
    intro s bo o
    simp only [p1TableLoop]
    simp [ih, createLabelS_events]

theorem p1LookupLoop_c (n : Nat) : ∀ (s : RState) (bo o : Nat),
    (p1LookupLoop s n bo o).1.c = s.c := by
  induction n with
  | zero => intro s bo o; rfl
  | succ n ih =>
    intro s bo o
    simp only [p1LookupLoop]
    simp [ih, createLabelS_c]

theorem p1LookupLoop_events (n : Nat) : ∀ (s : RState) (bo o : Nat),
    (p1LookupLoop s n bo o).1.events = s.events := by
  induction n with
  | zero => intro s bo o; rfl
  | succ n ih =>
    intro s bo o
    simp only [p1LookupLoop]
    simp [ih, createLabelS_events]

set_option maxRecDepth 8192 in
theorem pass1_ce (fuel : Nat) : ∀ (s : RState) (o bs be : Nat),
    (pass1 s fuel o bs be).1.c = s.c ∧ (pass1 s fuel o bs be).1.events = s.events := by
  induction fuel with
  | zero => exact fun s o bs be => ⟨rfl, rfl⟩
  | succ fuel ih =>
    intro s o bs be
    simp only [pass1]
    by_cases h1 : s.err.isSome = true
    · rw [if_pos h1]; exact ⟨rfl, rfl⟩
    rw [if_neg h1]
    by_cases h2 : o < be
    swap
    · rw [if_neg h2]; exact ⟨rfl, rfl⟩
    rw [if_pos h2]
    by_cases h3 : byteAt s.c.b o &&& 255 ∈ pass1SingleByte
    · rw [if_pos h3]; exact ih _ _ _ _
    rw [if_neg h3]
    by_cases h4 : byteAt s.c.b o &&& 255 ∈ jumpOpcodes
    · rw [if_pos h4]; exact ih _ _ _ _
    rw [if_neg h4]
    by_cases h5 : byteAt s.c.b o &&& 255 ∈ asmJumpOpcodes
    · rw [if_pos h5]; exact ih _ _ _ _
    rw [if_neg h5]
    by_cases h6 : byteAt s.c.b o &&& 255 = GOTO_W ∨ byteAt s.c.b o &&& 255 = JSR_W ∨
      byteAt s.c.b o &&& 255 = ASM_GOTO_W
    · rw [if_pos h6]; exact ih _ _ _ _
    rw [if_neg h6]
    by_cases h7 : byteAt s.c.b o &&& 255 = WIDE
    · rw [if_pos h7]
      by_cases h7a : byteAt s.c.b (o + 1) &&& 255 = IINC
      · rw [if_pos h7a]; exact ih _ _ _ _
      · rw [if_neg h7a]; exact ih _ _ _ _
    rw [if_neg h7]
    by_cases h8 : byteAt s.c.b o &&& 255 = TABLESWITCH
    · rw [if_pos h8]
      exact ⟨(ih _ _ _ _).1.trans (p1TableLoop_c _ _ _ _),
        (ih _ _ _ _).2.trans (p1TableLoop_events _ _ _ _)⟩
    rw [if_neg h8]
    by_cases h9 : byteAt s.c.b o &&& 255 = LOOKUPSWITCH
    · rw [if_pos h9]
      exact ⟨(ih _ _ _ _).1.trans (p1LookupLoop_c _ _ _ _),
        (ih _ _ _ _).2.trans (p1LookupLoop_events _ _ _ _)⟩
    rw [if_neg h9]
    by_cases h10 : byteAt s.c.b o &&& 255 ∈ pass1TwoByte
    · rw [if_pos h10]; exact ih _ _ _ _
    rw [if_neg h10]
    by_cases h11 : byteAt s.c.b o &&& 255 ∈ pass1ThreeByte
    · rw [if_pos h11]; exact ih _ _ _ _
    rw [if_neg h11]
    by_cases h12 : byteAt s.c.b o &&& 255 = INVOKEINTERFACE ∨
      byteAt s.c.b o &&& 255 = INVOKEDYNAMIC
    · rw [if_pos h12]; exact ih _ _ _ _
    rw [if_neg h12]
    by_cases h13 : byteAt s.c.b o &&& 255 = MULTIANEWARRAY
    · rw [if_pos h13]; exact ih _ _ _ _
    rw [if_neg h13]
    exact ⟨setErr_c _ _, setErr_events _ _⟩

theorem pass1_c (fuel : Nat) (s : RState) (o bs be : Nat) :
    (pass1 s fuel o bs be).1.c = s.c := (pass1_ce fuel s o bs be).1

theorem pass1_events (fuel : Nat) (s : RState) (o bs be : Nat) :
    (pass1 s fuel o bs be).1.events = s.events := (pass1_ce fuel s o bs be).2

theorem lvtScanLoop_pres {Q : VisitEvent → Bool} (n : Nat) : ∀ (s : RState) (o : Nat),
    Pres Q s (lvtScanLoop s n o).1 := by
  induction n with
  | zero => intro s o; exact Pres_rfl
  | succ n ih =>
    intro s o
    exact Pres_trans (Pres_trans createDebugLabelS_pres createDebugLabelS_pres) (ih _ _)

theorem lntScanLoop_pres {Q : VisitEvent → Bool} (n : Nat) : ∀ (s : RState) (o : Nat),
    Pres Q s (lntScanLoop s n o).1 := by
  induction n with
  | zero => intro s o; exact Pres_rfl
  | succ n ih =>
    intro s o
    exact Pres_trans (Pres_trans createDebugLabelS_pres modifyLabel_pres) (ih _ _)

theorem exceptionTableLoop_presL (n : Nat) : ∀ (s : RState) (o : Nat),
    Pres VisitEvent.isLabelEv s (exceptionTableLoop s n o).1 := by
  induction n with
  | zero => intro s o; exact Pres_rfl
  | succ n ih =>
    intro s o
    exact Pres_trans
      (Pres_trans (Pres_trans (Pres_trans createLabelS_pres createLabelS_pres) createLabelS_pres)
        (Pres_emit (by rfl))) (ih _ _)

theorem exceptionTable_presL (s : RState) (o : Nat) :
    Pres VisitEvent.isLabelEv s (exceptionTable s o).1 :=
  exceptionTableLoop_presL _ _ _

set_option maxHeartbeats 1000000 in
set_option maxRecDepth 8192 in
theorem readTypeAnnotsLoop_presL (fuel : Nat) :
    ∀ (s : RState) (visible : Bool) (count o : Nat) (acc : List Nat),
      Pres VisitEvent.isLabelEv s (readTypeAnnotsLoop s visible count fuel o acc).1 := by
  induction fuel with
  | zero => intro s visible count o acc; exact Pres_rfl
  | succ fuel ih =>
    intro s visible count o acc
    simp only [readTypeAnnotsLoop]
    split
    case isTrue => exact Pres_rfl
    split
    case isFalse => exact Pres_rfl
    split
    case h_1 => exact setErr_pres
    rename_i sB cB heq
    repeat' split at heq
    all_goals try cases heq
    all_goals try (replace heq := congrArg Prod.fst (Option.some.inj heq); dsimp only at heq; rw [← heq])
    all_goals repeat' first
      | exact Pres_trans (Pres_emit (by rfl)) (ih _ _ _ _ _)
      | exact ih _ _ _ _ _
      | exact Pres_trans (taLvLoop_pres _ _ _) (Pres_trans (Pres_emit (by rfl)) (ih _ _ _ _ _))
      | exact Pres_trans (taLvLoop_pres _ _ _) (ih _ _ _ _ _)
      | split

theorem readTypeAnnotations_presL (s : RState) (o : Nat) (visible : Bool) :
    Pres VisitEvent.isLabelEv s (readTypeAnnotations s o visible).1 :=
  readTypeAnnotsLoop_presL _ _ _ _ _ _

set_option maxHeartbeats 1000000 in
set_option maxRecDepth 8192 in
theorem attrScan_presL (n : Nat) : ∀ (s : RState) (o : Nat) (acc : CodeAttrs),
    Pres VisitEvent.isLabelEv s (attrScan s n o acc).1 := by
  induction n with
  | zero => intro s o acc; exact Pres_rfl
  | succ n ih =>
    intro s o acc
    simp only [attrScan]
    repeat' split
    all_goals try exact Pres_rfl
    all_goals try exact ih _ _ _
    all_goals try (rename_i sB oB heq; replace heq := congrArg Prod.fst heq; dsimp only at heq; rw [← heq])
    all_goals try exact Pres_trans (lvtScanLoop_pres _ _ _) (ih _ _ _)
    all_goals try exact Pres_trans (lntScanLoop_pres _ _ _) (ih _ _ _)
    all_goals try exact Pres_trans (readTypeAnnotations_presL _ _ _) (ih _ _ _)

theorem foldl_emit_pres {Q : VisitEvent → Bool} {α : Type} {f : α → VisitEvent}
    (hf : ∀ a, Q (f a) = false) :
    ∀ (l : List α) (s : RState), Pres Q s (l.foldl (fun s a => emit s (f a)) s) := by
  intro l
  induction l with
  | nil => intro s; exact Pres_rfl
  | cons a l ih =>
    intro s
    exact Pres_trans (Pres_emit (hf a)) (ih _)

theorem labelAccept_presT (s : RState) (l : LabelS) (off : Nat) (vln : Bool) :
    Pres VisitEvent.isTCB s (labelAccept s l off vln) := by
  simp only [labelAccept]
  repeat' first
    | exact Pres_emit (by rfl)
    | exact Pres_trans (Pres_emit (by rfl)) (Pres_emit (by rfl))
    | exact Pres_trans (Pres_emit (by rfl))
        (Pres_trans (Pres_emit (by rfl)) (foldl_emit_pres (fun _ => rfl) _ _))
    | split

set_option maxHeartbeats 1000000 in
set_option maxRecDepth 8192 in
theorem drainFrames_presT (fuel : Nat) :
    ∀ (s : RState) (smfo smteo : Nat) (cf ef : Bool) (cbo : Nat) (insf : Bool),
      Pres VisitEvent.isTCB s (drainFrames s fuel smfo smteo cf ef cbo insf).1 := by
  induction fuel with
  | zero => intro s smfo smteo cf ef cbo insf; exact Pres_rfl
  | succ fuel ih =>
    intro s smfo smteo cf ef cbo insf
    simp only [drainFrames]
    repeat' first
      | exact Pres_rfl
      | exact ih _ _ _ _ _ _ _
      | exact Pres_trans (Pres_emit (by rfl)) (ih _ _ _ _ _ _ _)
      | exact Pres_trans (readStackMapFrame_pres _ _ _ _) (ih _ _ _ _ _ _ _)
      | exact Pres_trans (Pres_emit (by rfl))
          (Pres_trans (readStackMapFrame_pres _ _ _ _) (ih _ _ _ _ _ _ _))
      | split

set_option maxHeartbeats 1000000 in
set_option maxRecDepth 8192 in
theorem interleave_presT (fuel : Nat) :
    ∀ (s : RState) (offsets : Option (List Nat)) (idx : Nat) (bco : Int) (cbo : Nat)
      (visible : Bool),
      Pres VisitEvent.isTCB s (interleave s offsets fuel idx bco cbo visible).1 := by
  induction fuel with
  | zero => intro s offsets idx bco cbo visible; exact Pres_rfl
  | succ fuel ih =>
    intro s offsets idx bco cbo visible
    simp only [interleave]
    repeat' first
      | exact Pres_rfl
      | exact ih _ _ _ _ _ _
      | exact Pres_trans readTypeAnnotationTarget_pres
          (Pres_trans (Pres_emit (by rfl)) (ih _ _ _ _ _ _))
      | split

set_option maxHeartbeats 4000000 in
set_option maxRecDepth 16384 in
theorem decodeInsn_presT (s : RState) (co cbo : Nat) (insf : Bool) (wjod : Nat) :
    Pres VisitEvent.isTCB s (decodeInsn s co cbo insf wjod).1 := by
  simp only [decodeInsn]
  by_cases h1 : byteAt s.c.b co &&& 255 ∈ pass2InsnOpcodes
  · rw [if_pos h1]; exact Pres_emit (by rfl)
  rw [if_neg h1]
  by_cases h2 : byteAt s.c.b co &&& 255 ∈ loadShortOpcodes
  · rw [if_pos h2]; exact Pres_emit (by rfl)
  rw [if_neg h2]
  by_cases h3 : byteAt s.c.b co &&& 255 ∈ storeShortOpcodes
  · rw [if_pos h3]; exact Pres_emit (by rfl)
  rw [if_neg h3]
  by_cases h4 : byteAt s.c.b co &&& 255 ∈ jumpOpcodes
  · rw [if_pos h4]; exact Pres_emit (by rfl)
  rw [if_neg h4]
  by_cases h5 : byteAt s.c.b co &&& 255 = GOTO_W ∨ byteAt s.c.b co &&& 255 = JSR_W
  · rw [if_pos h5]; exact Pres_emit (by rfl)
  rw [if_neg h5]
  by_cases h6 : byteAt s.c.b co &&& 255 ∈ asmJumpOpcodes
  · rw [if_pos h6]
    repeat' first
      | exact Pres_emit (by rfl)
      | exact Pres_trans createLabelS_pres
          (Pres_trans (Pres_emit (by rfl)) (Pres_emit (by rfl)))
      | split
  rw [if_neg h6]
  by_cases h7 : byteAt s.c.b co &&& 255 = ASM_GOTO_W
  · rw [if_pos h7]; exact Pres_emit (by rfl)
  rw [if_neg h7]
  by_cases h8 : byteAt s.c.b co &&& 255 = WIDE
  · rw [if_pos h8]
    repeat' first
      | exact Pres_emit (by rfl)
      | split
  rw [if_neg h8]
  by_cases h9 : byteAt s.c.b co &&& 255 = TABLESWITCH
  · rw [if_pos h9]
    repeat' first
      | exact Pres_emit (by rfl)
      | exact setErr_pres
      | split
  rw [if_neg h9]
  by_cases h10 : byteAt s.c.b co &&& 255 = LOOKUPSWITCH
  · rw [if_pos h10]
    repeat' first
      | exact Pres_emit (by rfl)
      | split
  rw [if_neg h10]
  by_cases h11 : byteAt s.c.b co &&& 255 ∈ varInsnOpcodes
  · rw [if_pos h11]; exact Pres_emit (by rfl)
  rw [if_neg h11]
  by_cases h12 : byteAt s.c.b co &&& 255 = BIPUSH ∨ byteAt s.c.b co &&& 255 = NEWARRAY
  · rw [if_pos h12]; exact Pres_emit (by rfl)
  rw [if_neg h12]
  by_cases h13 : byteAt s.c.b co &&& 255 = SIPUSH
  · rw [if_pos h13]; exact Pres_emit (by rfl)
  rw [if_neg h13]
  by_cases h14 : byteAt s.c.b co &&& 255 = LDC
  · rw [if_pos h14]; exact Pres_emit (by rfl)
  rw [if_neg h14]
  by_cases h15 : byteAt s.c.b co &&& 255 = LDC_W ∨ byteAt s.c.b co &&& 255 = LDC2_W
  · rw [if_pos h15]; exact Pres_emit (by rfl)
  rw [if_neg h15]
  by_cases h16 : byteAt s.c.b co &&& 255 ∈ fieldMethodOpcodes
  · rw [if_pos h16]
    repeat' first
      | exact Pres_emit (by rfl)
      | split
  rw [if_neg h16]
  by_cases h17 : byteAt s.c.b co &&& 255 = INVOKEDYNAMIC
  · rw [if_pos h17]
    repeat' first
      | exact Pres_emit (by rfl)
      | exact setErr_pres
      | split
  rw [if_neg h17]
  by_cases h18 : byteAt s.c.b co &&& 255 = NEW ∨ byteAt s.c.b co &&& 255 = ANEWARRAY ∨
    byteAt s.c.b co &&& 255 = CHECKCAST ∨ byteAt s.c.b co &&& 255 = INSTANCEOF
  · rw [if_pos h18]; exact Pres_emit (by rfl)
  rw [if_neg h18]
  by_cases h19 : byteAt s.c.b co &&& 255 = IINC
  · rw [if_pos h19]; exact Pres_emit (by rfl)
  rw [if_neg h19]
  by_cases h20 : byteAt s.c.b co &&& 255 = MULTIANEWARRAY
  · rw [if_pos h20]; exact Pres_emit (by rfl)
  rw [if_neg h20]
  exact setErr_pres

set_option maxHeartbeats 4000000 in
set_option maxRecDepth 16384 in
theorem pass2_presT (fuel : Nat) :
    ∀ (s : RState) (co bs be smfo smteo : Nat) (cf ef : Bool) (wjod : Nat)
      (vo io : Option (List Nat)) (vi : Nat) (vb : Int) (ii : Nat) (ib : Int) (insf : Bool),
      Pres VisitEvent.isTCB s
        (pass2 s fuel co bs be smfo smteo cf ef wjod vo io vi vb ii ib insf) := by
  induction fuel with
  | zero => intro s co bs be smfo smteo cf ef wjod vo io vi vb ii ib insf; exact Pres_rfl
  | succ fuel ih =>
    intro s co bs be smfo smteo cf ef wjod vo io vi vb ii ib insf
    simp only [pass2]
    repeat' split
    all_goals try exact Pres_rfl
    all_goals repeat'
      (rename_i sB oB fB heq; replace heq := congrArg Prod.fst heq; dsimp only at heq; rw [← heq])
    all_goals refine Pres_trans ?_ (ih _ _ _ _ _ _ _ _ _ _ _ _ _ _ _ _)
    all_goals refine Pres_trans ?_ (interleave_presT _ _ _ _ _ _ _)
    all_goals refine Pres_trans ?_ (interleave_presT _ _ _ _ _ _ _)
    all_goals refine Pres_trans ?_ (decodeInsn_presT _ _ _ _ _)
    all_goals try refine Pres_trans ?_ (Pres_emit (by rfl))
    all_goals refine Pres_trans ?_ (drainFrames_presT _ _ _ _ _ _ _ _)
    all_goals first
      | exact labelAccept_presT _ _ _ _
      | exact Pres_rfl

theorem lvtEmit_presT (n : Nat) : ∀ (s : RState) (o : Nat) (tt : List (Nat × Nat × Nat)),
    Pres VisitEvent.isTCB s (lvtEmit s n o tt) := by
  induction n with
  | zero => intro s o tt; exact Pres_rfl
  | succ n ih =>
    intro s o tt
    simp only [lvtEmit]
    exact Pres_trans (Pres_emit (by rfl)) (ih _ _ _)

set_option maxHeartbeats 2000000 in
set_option maxRecDepth 8192 in
theorem lvaLoop_presT (fuel : Nat) :
    ∀ (s : RState) (tOffsets : Option (List Nat)) (offs : List Nat) (i : Nat) (visible : Bool),
      Pres VisitEvent.isTCB s (lvaLoop s tOffsets offs fuel i visible) := by
  induction fuel with
  | zero => intro s tOffsets offs i visible; exact Pres_rfl
  | succ fuel ih =>
    intro s tOffsets offs i visible
    simp only [lvaLoop]
    repeat' split
    all_goals try exact Pres_rfl
    all_goals repeat'
      (rename_i sB oB heq; replace heq := congrArg Prod.fst heq; dsimp only at heq; rw [← heq])
    all_goals refine Pres_trans ?_ (ih _ _ _ _ _)
    all_goals first
      | exact Pres_rfl
      | exact setErr_pres
      | exact Pres_trans readTypeAnnotationTarget_pres (Pres_emit (by rfl))

set_option maxHeartbeats 2000000 in
set_option maxRecDepth 8192 in
theorem readCodeTail_presT (s : RState) (cAttrs : CodeAttrs) (cl ms ml : Nat) :
    Pres VisitEvent.isTCB s (readCodeTail s cAttrs cl ms ml) := by
  simp only [readCodeTail]
  refine Pres_trans ?_ (Pres_emit (by rfl))
  refine Pres_trans ?_ (foldl_emit_pres (fun _ => rfl) _ _)
  split
  all_goals try refine Pres_trans ?_ (lvaLoop_presT _ _ _ _ _ _)
  all_goals split
  all_goals try refine Pres_trans ?_ (lvaLoop_presT _ _ _ _ _ _)
  all_goals split
  all_goals try refine Pres_trans ?_ (lvtEmit_presT _ _ _ _)
  all_goals split
  all_goals try refine Pres_trans ?_ (Pres_emit (by rfl))
  all_goals exact Pres_rfl
